import Mathlib

/-!
Verification of the blender2vox VOX codec and quantizer.

This file shallowly embeds the Python modules `vox_writer.py`, `vox_reader.py`,
`vox_importer.py` (rotation decoding) and `vox_exporter.py` (color
quantization) of the blender2vox repository, and proves or refutes the frozen
specification claims about them.

Modelling conventions:
- Python `bytes` values are `List Nat` (each element a byte 0-255).
- Python unbounded signed integers are `Int`; values read from the file
  (always produced by unsigned struct unpacking) are `Nat`.
- `struct.pack` raises on out-of-range values, so packing returns `Option`;
  functions that can raise Python exceptions return `Except String`.
- File I/O is abstracted: the writer produces the byte string it would write,
  the reader consumes the byte string read from the file.
- Python `s[a:b]` slicing clamps at the ends; `struct.unpack` then fails if
  the slice is shorter than the format requires.
-/

/-- Python slice `l[start : start+len]`: clamps at the end of the list. -/
def pySlice (l : List Nat) (start len : Nat) : List Nat :=
  (l.drop start).take len

/-- Value of four little-endian bytes (the unique `n < 2^32` they encode). -/
def u32of (l : List Nat) : Nat :=
  match l with
  | [b0, b1, b2, b3] => b0 + 256 * b1 + 65536 * b2 + 16777216 * b3
  | _ => 0

/-- Little-endian byte encoding of `n % 2^32` (the bytes `struct.pack('<I', n)`
produces when `n < 2^32`). -/
def u32b (n : Nat) : List Nat :=
  [n % 256, n / 256 % 256, n / 65536 % 256, n / 16777216 % 256]

/-- Model of `struct.unpack('<I', content[pos:pos+4])[0]`: errors when fewer
than 4 bytes remain (struct.error on a short buffer). -/
def unpack32 (content : List Nat) (pos : Nat) : Except String Nat :=
  match pySlice content pos 4 with
  | [b0, b1, b2, b3] => .ok (b0 + 256 * b1 + 65536 * b2 + 16777216 * b3)
  | _ => .error "struct.error: unpack requires a buffer of 4 bytes"

/-- Model of `struct.pack('<I', n)` on a Python int: raises outside `[0, 2^32)`. -/
def pack32 (n : Nat) : Option (List Nat) :=
  if n < 4294967296 then some (u32b n) else none

/-- Model of `struct.pack('<I', i)` for a signed Python int argument. -/
def pack32i (i : Int) : Option (List Nat) :=
  if 0 ≤ i ∧ i < 4294967296 then some (u32b i.toNat) else none

/-- Model of packing one `B` (unsigned byte) field: raises outside `[0, 255]`. -/
def packB (i : Int) : Option Nat :=
  if 0 ≤ i ∧ i ≤ 255 then some i.toNat else none

/-- Byte strings for the ASCII chunk/file tags used by the codec. -/
def VOXtag : List Nat := [86, 79, 88, 32]

def MAINtag : List Nat := [77, 65, 73, 78]

def PACKtag : List Nat := [80, 65, 67, 75]

def SIZEtag : List Nat := [83, 73, 90, 69]

def XYZItag : List Nat := [88, 89, 90, 73]

def RGBAtag : List Nat := [82, 71, 66, 65]

def nTRNtag : List Nat := [110, 84, 82, 78]

def nSHPtag : List Nat := [110, 83, 72, 80]

/-- Shared default-palette table: the `default` / `default_hex` list of
0xAABBGGRR words that appears identically in `vox_writer.VoxPalette` and in
`vox_reader.get_default_palette`. -/
def defaultPaletteHex : List Nat := [
  0x00000000, 0xffffffff, 0xffccffff, 0xff99ffff, 0xff66ffff, 0xff33ffff, 0xff00ffff, 0xffffccff,
  0xffccccff, 0xff99ccff, 0xff66ccff, 0xff33ccff, 0xff00ccff, 0xffff99ff, 0xffcc99ff, 0xff9999ff,
  0xff6699ff, 0xff3399ff, 0xff0099ff, 0xffff66ff, 0xffcc66ff, 0xff9966ff, 0xff6666ff, 0xff3366ff,
  0xff0066ff, 0xffff33ff, 0xffcc33ff, 0xff9933ff, 0xff6633ff, 0xff3333ff, 0xff0033ff, 0xffff00ff,
  0xffcc00ff, 0xff9900ff, 0xff6600ff, 0xff3300ff, 0xff0000ff, 0xffffffcc, 0xffccffcc, 0xff99ffcc,
  0xff66ffcc, 0xff33ffcc, 0xff00ffcc, 0xffffcccc, 0xffcccccc, 0xff99cccc, 0xff66cccc, 0xff33cccc,
  0xff00cccc, 0xffff99cc, 0xffcc99cc, 0xff9999cc, 0xff6699cc, 0xff3399cc, 0xff0099cc, 0xffff66cc,
  0xffcc66cc, 0xff9966cc, 0xff6666cc, 0xff3366cc, 0xff0066cc, 0xffff33cc, 0xffcc33cc, 0xff9933cc,
  0xff6633cc, 0xff3333cc, 0xff0033cc, 0xffff00cc, 0xffcc00cc, 0xff9900cc, 0xff6600cc, 0xff3300cc,
  0xff0000cc, 0xffffff99, 0xffccff99, 0xff99ff99, 0xff66ff99, 0xff33ff99, 0xff00ff99, 0xffffcc99,
  0xffcccc99, 0xff99cc99, 0xff66cc99, 0xff33cc99, 0xff00cc99, 0xffff9999, 0xffcc9999, 0xff999999,
  0xff669999, 0xff339999, 0xff009999, 0xffff6699, 0xffcc6699, 0xff996699, 0xff666699, 0xff336699,
  0xff006699, 0xffff3399, 0xffcc3399, 0xff993399, 0xff663399, 0xff333399, 0xff003399, 0xffff0099,
  0xffcc0099, 0xff990099, 0xff660099, 0xff330099, 0xff000099, 0xffffff66, 0xffccff66, 0xff99ff66,
  0xff66ff66, 0xff33ff66, 0xff00ff66, 0xffffcc66, 0xffcccc66, 0xff99cc66, 0xff66cc66, 0xff33cc66,
  0xff00cc66, 0xffff9966, 0xffcc9966, 0xff999966, 0xff669966, 0xff339966, 0xff009966, 0xffff6666,
  0xffcc6666, 0xff996666, 0xff666666, 0xff336666, 0xff006666, 0xffff3366, 0xffcc3366, 0xff993366,
  0xff663366, 0xff333366, 0xff003366, 0xffff0066, 0xffcc0066, 0xff990066, 0xff660066, 0xff330066,
  0xff000066, 0xffffff33, 0xffccff33, 0xff99ff33, 0xff66ff33, 0xff33ff33, 0xff00ff33, 0xffffcc33,
  0xffcccc33, 0xff99cc33, 0xff66cc33, 0xff33cc33, 0xff00cc33, 0xffff9933, 0xffcc9933, 0xff999933,
  0xff669933, 0xff339933, 0xff009933, 0xffff6633, 0xffcc6633, 0xff996633, 0xff666633, 0xff336633,
  0xff006633, 0xffff3333, 0xffcc3333, 0xff993333, 0xff663333, 0xff333333, 0xff003333, 0xffff0033,
  0xffcc0033, 0xff990033, 0xff660033, 0xff330033, 0xff000033, 0xffffff00, 0xffccff00, 0xff99ff00,
  0xff66ff00, 0xff33ff00, 0xff00ff00, 0xffffcc00, 0xffcccc00, 0xff99cc00, 0xff66cc00, 0xff33cc00,
  0xff00cc00, 0xffff9900, 0xffcc9900, 0xff999900, 0xff669900, 0xff339900, 0xff009900, 0xffff6600,
  0xffcc6600, 0xff996600, 0xff666600, 0xff336600, 0xff006600, 0xffff3300, 0xffcc3300, 0xff993300,
  0xff663300, 0xff333300, 0xff003300, 0xffff0000, 0xffcc0000, 0xff990000, 0xff660000, 0xff330000,
  0xff0000ee, 0xff0000dd, 0xff0000bb, 0xff0000aa, 0xff000088, 0xff000077, 0xff000055, 0xff000044,
  0xff000022, 0xff000011, 0xff00ee00, 0xff00dd00, 0xff00bb00, 0xff00aa00, 0xff008800, 0xff007700,
  0xff005500, 0xff004400, 0xff002200, 0xff001100, 0xffee0000, 0xffdd0000, 0xffbb0000, 0xffaa0000,
  0xff880000, 0xff770000, 0xff550000, 0xff440000, 0xff220000, 0xff110000, 0xffeeeeee, 0xffdddddd,
  0xffbbbbbb, 0xffaaaaaa, 0xff888888, 0xff777777, 0xff555555, 0xff444444, 0xff222222, 0xff111111]

/-- Decode one 0xAABBGGRR word into an `(r, g, b, a)` tuple of bytes, exactly
as both default-palette loops do with shifts and masks. -/
def decodeABGR (v : Nat) : Nat × Nat × Nat × Nat :=
  (v % 256, v / 256 % 256, v / 65536 % 256, v / 16777216 % 256)

namespace VoxW

/-- Embedding of `vox_writer.VoxChunk`: the chunk id is stored as its ASCII
byte string (the source stores the `str` and calls `.encode('ascii')`). -/
structure VoxChunk where
  chunk_id : List Nat
  content : List Nat
  children : List Nat := []
deriving DecidableEq, Repr

/-- Embedding of `VoxChunk.to_bytes`. -/
def VoxChunk.to_bytes (c : VoxChunk) : Option (List Nat) := do
  let cl ← pack32 c.content.length
  let kl ← pack32 c.children.length
  some (c.chunk_id ++ cl ++ kl ++ c.content ++ c.children)

/-- Embedding of `vox_writer.VoxModel`: sizes are arbitrary Python ints,
voxels are `(x, y, z, color_index)` tuples. -/
structure VoxModel where
  size_x : Int := 1
  size_y : Int := 1
  size_z : Int := 1
  voxels : List (Int × Int × Int × Int) := []
deriving DecidableEq, Repr

/-- Embedding of `VoxModel.add_voxel`: validates ranges before appending, so
an error leaves the voxel list untouched. -/
def VoxModel.add_voxel (m : VoxModel) (x y z color_index : Int) :
    Except String VoxModel :=
  if ¬ (0 ≤ x ∧ x < 256 ∧ 0 ≤ y ∧ y < 256 ∧ 0 ≤ z ∧ z < 256) then
    .error "Voxel coordinates must be in range 0-255"
  else if ¬ (1 ≤ color_index ∧ color_index ≤ 255) then
    .error "Color index must be in range 1-255"
  else
    .ok { m with voxels := m.voxels ++ [(x, y, z, color_index)] }

/-- Embedding of `VoxModel.get_size_chunk`: `struct.pack('<III', sx, sy, sz)`. -/
def VoxModel.get_size_chunk (m : VoxModel) : Option VoxChunk := do
  let bx ← pack32i m.size_x
  let by' ← pack32i m.size_y
  let bz ← pack32i m.size_z
  some ⟨SIZEtag, bx ++ by' ++ bz, []⟩

/-- Pack a list of voxel/color quadruples with `struct.pack('<BBBB', ...)`,
in list order. -/
def packQuads : List (Int × Int × Int × Int) → Option (List Nat)
  | [] => some []
  | (x, y, z, c) :: rest => do
    let bx ← packB x
    let by' ← packB y
    let bz ← packB z
    let bc ← packB c
    let tail ← packQuads rest
    some (bx :: by' :: bz :: bc :: tail)

/-- Embedding of `VoxModel.get_xyzi_chunk`. -/
def VoxModel.get_xyzi_chunk (m : VoxModel) : Option VoxChunk := do
  let cnt ← pack32 m.voxels.length
  let body ← packQuads m.voxels
  some ⟨XYZItag, cnt ++ body, []⟩

/-- Embedding of `vox_writer.VoxPalette`: a list of 256 RGBA tuples. -/
structure VoxPalette where
  colors : List (Int × Int × Int × Int)
deriving DecidableEq, Repr

/-- The writer's `VoxPalette._get_default_palette` result. -/
def defaultColors : List (Int × Int × Int × Int) :=
  defaultPaletteHex.map fun v =>
    let q := decodeABGR v
    ((q.1 : Int), (q.2.1 : Int), (q.2.2.1 : Int), (q.2.2.2 : Int))

/-- A fresh `VoxPalette()` as built by `__init__`. -/
def VoxPalette.new : VoxPalette := ⟨defaultColors⟩

/-- Embedding of `VoxPalette.set_color`: validates the index before the list
assignment, so an error leaves the palette untouched. -/
def VoxPalette.set_color (p : VoxPalette) (index r g b a : Int) :
    Except String VoxPalette :=
  if ¬ (1 ≤ index ∧ index ≤ 255) then
    .error "Palette index must be in range 1-255"
  else
    .ok ⟨p.colors.set index.toNat (r, g, b, a)⟩

/-- The 256 RGBA tuples the `get_rgba_chunk` loop packs: file position `i`
holds `colors[i+1]` when that index exists, else the `(0,0,0,255)` filler. -/
def rgbaEntries (colors : List (Int × Int × Int × Int)) :
    List (Int × Int × Int × Int) :=
  (List.range 256).map fun i =>
    if i + 1 < colors.length then colors.getD (i + 1) (0, 0, 0, 255)
    else (0, 0, 0, 255)

/-- Embedding of `VoxPalette.get_rgba_chunk`. -/
def VoxPalette.get_rgba_chunk (p : VoxPalette) : Option VoxChunk := do
  let body ← packQuads (rgbaEntries p.colors)
  some ⟨RGBAtag, body, []⟩

/-- Embedding of `vox_writer.VoxWriter` (models plus palette). -/
structure VoxWriter where
  models : List VoxModel
  palette : VoxPalette

/-- Serialize the SIZE and XYZI chunks of each model in order. -/
def modelChunksBytes : List VoxModel → Option (List Nat)
  | [] => some []
  | m :: rest => do
    let sc ← m.get_size_chunk
    let sb ← sc.to_bytes
    let xc ← m.get_xyzi_chunk
    let xb ← xc.to_bytes
    let tail ← modelChunksBytes rest
    some (sb ++ xb ++ tail)

/-- Embedding of `VoxWriter.write`: the byte string written to the file
(header, then a MAIN chunk whose children concatenate PACK when there is more
than one model, each model's SIZE and XYZI chunks, and the RGBA chunk). -/
def VoxWriter.write (w : VoxWriter) : Option (List Nat) := do
  let versionBytes ← pack32 150
  let packPart ←
    if w.models.length > 1 then do
      let pc ← pack32 w.models.length
      VoxChunk.to_bytes ⟨PACKtag, pc, []⟩
    else some []
  let modelParts ← modelChunksBytes w.models
  let rgbaChunk ← w.palette.get_rgba_chunk
  let rgbaBytes ← rgbaChunk.to_bytes
  let childrenData := packPart ++ modelParts ++ rgbaBytes
  let mainBytes ← VoxChunk.to_bytes ⟨MAINtag, [], childrenData⟩
  some (VOXtag ++ versionBytes ++ mainBytes)

end VoxW

namespace VoxR

/-- Model of `bytes.decode('ascii', errors='replace')`: bytes below 0x80 stay
themselves, others become the replacement character U+FFFD.  Strings are
represented as lists of codepoints. -/
def asciiDecode (bs : List Nat) : List Nat :=
  bs.map fun b => if b < 128 then b else 0xFFFD

/-- Python dict assignment `d[k] = v` on an insertion-ordered dict: an
existing key keeps its position and gets the new value, a new key is
appended. -/
def dictInsert {α β : Type} [DecidableEq α] :
    List (α × β) → α → β → List (α × β)
  | [], k, v => [(k, v)]
  | (k', v') :: rest, k, v =>
    if k' = k then (k, v) :: rest else (k', v') :: dictInsert rest k v

/-- Python dict lookup (keys are unique after `dictInsert`). -/
def dictGet {α β : Type} [DecidableEq α] (d : List (α × β)) (k : α) :
    Option β :=
  (d.find? fun e => decide (e.1 = k)).map (·.2)

/-- Model of `struct.unpack('<BBBB', content[pos:pos+4])`. -/
def unpackBBBB (content : List Nat) (pos : Nat) :
    Except String (Nat × Nat × Nat × Nat) :=
  match pySlice content pos 4 with
  | [a, b, c, d] => .ok (a, b, c, d)
  | _ => .error "struct.error: unpack requires a buffer of 4 bytes"

/-- Model of `struct.unpack('<III', content[:12])`. -/
def unpackIII (content : List Nat) : Except String (Nat × Nat × Nat) :=
  match pySlice content 0 12 with
  | [a0, a1, a2, a3, b0, b1, b2, b3, c0, c1, c2, c3] =>
    .ok (u32of [a0, a1, a2, a3], u32of [b0, b1, b2, b3], u32of [c0, c1, c2, c3])
  | _ => .error "struct.error: unpack requires a buffer of 12 bytes"

/-- Embedding of `_parse_dict`'s entry loop: `count` remaining entries,
cursor `pos`, accumulated attributes. -/
def parseDictGo (content : List Nat) :
    Nat → Nat → List (List Nat × List Nat) →
    Except String (List (List Nat × List Nat) × Nat)
  | 0, pos, attrs => .ok (attrs, pos)
  | n + 1, pos, attrs => do
    let keyLen ← unpack32 content pos
    let key := asciiDecode (pySlice content (pos + 4) keyLen)
    let pos1 := pos + 4 + keyLen
    let valLen ← unpack32 content pos1
    let val := asciiDecode (pySlice content (pos1 + 4) valLen)
    parseDictGo content n (pos1 + 4 + valLen) (dictInsert attrs key val)

/-- Embedding of `vox_reader._parse_dict`. -/
def parse_dict (content : List Nat) (start_pos : Nat) :
    Except String (List (List Nat × List Nat) × Nat) := do
  let numAttrs ← unpack32 content start_pos
  parseDictGo content numAttrs (start_pos + 4) []

/-- A linearly parsed chunk.  The source stores the ascii-replace decode of
the id; that decode equals an ASCII tag string exactly when the raw bytes
equal the tag's bytes, and the id is only ever compared against ASCII tags,
so we keep the raw bytes. -/
structure RChunk where
  id : List Nat
  content : List Nat
deriving DecidableEq, Repr

/-- Embedding of the chunk-scan loop of `read_vox_scene`.  The loop consumes
at least 12 bytes per iteration, so `data.length` is always enough fuel and
the fuel-exhausted branch is unreachable from `parseChunks`. -/
def parseChunksGo (data : List Nat) : Nat → Nat → List RChunk
  | _, 0 => []
  | pos, fuel + 1 =>
    if pos < data.length then
      if data.length < pos + 12 then []
      else
        let cid := pySlice data pos 4
        let contentSize := u32of (pySlice data (pos + 4) 4)
        let content := pySlice data (pos + 12) contentSize
        ⟨cid, content⟩ :: parseChunksGo data (pos + 12 + contentSize) fuel
    else []

/-- All chunks of the byte stream, scanned linearly from position 8. -/
def parseChunks (data : List Nat) : List RChunk :=
  parseChunksGo data 8 data.length

/-- Embedding of the reader's `VoxModel` dataclass. -/
structure RVoxModel where
  size_x : Nat
  size_y : Nat
  size_z : Nat
  voxels : List (Nat × Nat × Nat × Nat)
  translation : Int × Int × Int := (0, 0, 0)
  rotation : Int := 0
  name : List Nat := []
deriving DecidableEq, Repr

/-- Embedding of the reader's `VoxelData` dataclass. -/
structure VoxelData where
  size_x : Nat
  size_y : Nat
  size_z : Nat
  voxels : List (Nat × Nat × Nat × Nat)
  palette : List (Nat × Nat × Nat × Nat)
deriving DecidableEq, Repr

/-- Embedding of the reader's `VoxScene` dataclass; an instance is
`(model_id, translation, rotation, name)`. -/
structure VoxScene where
  models : List RVoxModel
  palette : List (Nat × Nat × Nat × Nat)
  instances : List (Nat × (Int × Int × Int) × Int × List Nat)
deriving DecidableEq, Repr

/-- Embedding of `vox_reader.get_default_palette`. -/
def get_default_palette : List (Nat × Nat × Nat × Nat) :=
  defaultPaletteHex.map decodeABGR

/-- Shared embedding of the two `'<BBBB'` unpacking loops (XYZI voxels at
offsets `4 + 4*i`, RGBA entries at offsets `4*i`): read `k` quadruples
starting at `off`, stepping 4. -/
def readQuads (content : List Nat) :
    Nat → Nat → Except String (List (Nat × Nat × Nat × Nat))
  | _, 0 => .ok []
  | off, k + 1 => do
    let q ← unpackBBBB content off
    let rest ← readQuads content (off + 4) k
    .ok (q :: rest)

/-- Embedding of the first chunk-processing loop of `read_vox_scene`: builds
the model list (pairing each XYZI with the ambient `current_size`, which is
never cleared) and the palette (RGBA replaces it wholesale). -/
def extractGeomGo :
    List RChunk → Option (Nat × Nat × Nat) → List RVoxModel →
    List (Nat × Nat × Nat × Nat) →
    Except String (List RVoxModel × List (Nat × Nat × Nat × Nat))
  | [], _, models, palette => .ok (models, palette)
  | c :: rest, currentSize, models, palette =>
    if c.id = SIZEtag then do
      let s ← unpackIII c.content
      extractGeomGo rest (some s) models palette
    else if c.id = XYZItag then do
      let numVoxels ← unpack32 c.content 0
      let voxels ← readQuads c.content 4 numVoxels
      match currentSize with
      | some (sx, sy, sz) =>
        extractGeomGo rest currentSize
          (models ++ [{ size_x := sx, size_y := sy, size_z := sz,
                        voxels := voxels }]) palette
      | none => extractGeomGo rest currentSize models palette
    else if c.id = RGBAtag then do
      let p ← readQuads c.content 0 256
      extractGeomGo rest currentSize models p
    else extractGeomGo rest currentSize models palette

/-- The models and palette extracted from a chunk list. -/
def extractGeom (chunks : List RChunk) :
    Except String (List RVoxModel × List (Nat × Nat × Nat × Nat)) :=
  extractGeomGo chunks none [] get_default_palette

/-- The ASCII codepoints for which Python `str.isspace()` holds (the only
whitespace codepoints that ascii-replace decoding can produce). -/
def pyIsSpace (c : Nat) : Bool :=
  decide ((9 ≤ c ∧ c ≤ 13) ∨ (28 ≤ c ∧ c ≤ 31) ∨ c = 32)

/-- Helper for `str.split()` with no separator: split on whitespace runs. -/
def pySplitGo : List Nat → List Nat → List (List Nat)
  | [], cur => if cur = [] then [] else [cur.reverse]
  | c :: rest, cur =>
    if pyIsSpace c then
      if cur = [] then pySplitGo rest [] else cur.reverse :: pySplitGo rest []
    else pySplitGo rest (c :: cur)

/-- Model of Python `str.split()` (no argument). -/
def pySplit (s : List Nat) : List (List Nat) := pySplitGo s []

def isDigitB (c : Nat) : Bool := decide (48 ≤ c ∧ c ≤ 57)

/-- Digit tail of a Python int literal: digits with single underscores
allowed only between digits. -/
def pyIntDigitsGo : List Nat → Nat → Option Nat
  | [], acc => some acc
  | 95 :: c :: rest, acc =>
    if isDigitB c then pyIntDigitsGo rest (acc * 10 + (c - 48)) else none
  | c :: rest, acc =>
    if isDigitB c then pyIntDigitsGo rest (acc * 10 + (c - 48)) else none

/-- Unsigned body of a Python int literal: at least one leading digit. -/
def pyIntBody : List Nat → Option Nat
  | [] => none
  | c :: rest => if isDigitB c then pyIntDigitsGo rest (c - 48) else none

/-- Signed Python int literal after whitespace stripping. -/
def pyIntCore : List Nat → Option Int
  | 43 :: rest => (pyIntBody rest).map fun n => (n : Int)
  | 45 :: rest => (pyIntBody rest).map fun n => -(n : Int)
  | s => (pyIntBody s).map fun n => (n : Int)

def stripWs (s : List Nat) : List Nat :=
  ((s.dropWhile pyIsSpace).reverse.dropWhile pyIsSpace).reverse

/-- Model of Python `int(s)` on a decoded attribute string: strips
whitespace, accepts one optional sign and a digit sequence, raises
`ValueError` otherwise.  (Non-ASCII decimal digits cannot occur: ascii-replace
decoding only yields codepoints below 0x80 or U+FFFD.) -/
def pyInt (s : List Nat) : Except String Int :=
  match pyIntCore (stripWs s) with
  | some v => .ok v
  | none => .error "ValueError: invalid literal for int with base 10"

/-- Decoded attribute keys `'_t'`, `'_r'`, `'_name'`. -/
def tKey : List Nat := [95, 116]

def rKey : List Nat := [95, 114]

def nameKey : List Nat := [95, 110, 97, 109, 101]

/-- Translation from the frame attribute `_t`: three space-separated ints,
default `(0,0,0)` when absent or not exactly three parts; `int()` failures
propagate. -/
def parseTranslation (frameAttrs : List (List Nat × List Nat)) :
    Except String (Int × Int × Int) :=
  match dictGet frameAttrs tKey with
  | some v =>
    match pySplit v with
    | [p0, p1, p2] => do
      let a ← pyInt p0
      let b ← pyInt p1
      let c ← pyInt p2
      .ok (a, b, c)
    | _ => .ok (0, 0, 0)
  | none => .ok (0, 0, 0)

/-- Rotation from the frame attribute `_r`, default 0 when absent. -/
def parseRotation (frameAttrs : List (List Nat × List Nat)) :
    Except String Int :=
  match dictGet frameAttrs rKey with
  | some v => pyInt v
  | none => .ok 0

/-- A transform-node record: `node_id ↦ (child_node_id, translation,
rotation, name)`. -/
abbrev TransformDict := List (Nat × Nat × (Int × Int × Int) × Int × List Nat)

/-- Embedding of the `nTRN` branch of the scene-graph loop. -/
def processNTRN (content : List Nat) (transforms : TransformDict) :
    Except String TransformDict := do
  let nodeId ← unpack32 content 0
  let (attrs, pos0) ← parse_dict content 4
  let childNodeId ← unpack32 content pos0
  let pos1 := pos0 + 4 + 4 + 4
  let numFrames ← unpack32 content pos1
  let pos2 := pos1 + 4
  let frameAttrs ←
    if numFrames > 0 ∧ pos2 < content.length then do
      let (fa, _) ← parse_dict content pos2
      pure fa
    else pure []
  let translation ← parseTranslation frameAttrs
  let rotation ← parseRotation frameAttrs
  let name := (dictGet attrs nameKey).getD []
  .ok (dictInsert transforms nodeId (childNodeId, translation, rotation, name))

/-- Embedding of the `nSHP` branch of the scene-graph loop. -/
def processNSHP (content : List Nat) (shapeNodes : List (Nat × Nat)) :
    Except String (List (Nat × Nat)) := do
  let nodeId ← unpack32 content 0
  let (_attrs, pos0) ← parse_dict content 4
  let numModels ← unpack32 content pos0
  if numModels > 0 then do
    let modelId ← unpack32 content (pos0 + 4)
    .ok (dictInsert shapeNodes nodeId modelId)
  else .ok shapeNodes

/-- Embedding of the second chunk-processing loop of `read_vox_scene`. -/
def extractSceneGraphGo :
    List RChunk → TransformDict → List (Nat × Nat) →
    Except String (TransformDict × List (Nat × Nat))
  | [], ts, ss => .ok (ts, ss)
  | c :: rest, ts, ss =>
    if c.id = nTRNtag then do
      let ts' ← processNTRN c.content ts
      extractSceneGraphGo rest ts' ss
    else if c.id = nSHPtag then do
      let ss' ← processNSHP c.content ss
      extractSceneGraphGo rest ts ss'
    else extractSceneGraphGo rest ts ss

/-- Decimal digits helper with structural fuel (`n + 1` digits always
suffice). -/
def natDecAux : Nat → Nat → List Nat
  | _, 0 => []
  | n, fuel + 1 =>
    if n < 10 then [48 + n] else natDecAux (n / 10) fuel ++ [48 + n % 10]

/-- Codepoints of `str(n)` for a natural number. -/
def natDec (n : Nat) : List Nat := natDecAux n (n + 1)

/-- Codepoints of the synthesized instance name `f"Model_{i}"`. -/
def modelName (i : Nat) : List Nat := [77, 111, 100, 101, 108, 95] ++ natDec i

/-- Embedding of the instance-building tail of `read_vox_scene`: transforms
whose child is a shape node with a valid model id yield instances; when none
exist and there are models, one identity instance per model is synthesized. -/
def buildInstances (transforms : TransformDict) (shapes : List (Nat × Nat))
    (numModels : Nat) : List (Nat × (Int × Int × Int) × Int × List Nat) :=
  let fromGraph := transforms.foldl (fun acc e =>
    match e with
    | (_, childNodeId, translation, rotation, name) =>
      match dictGet shapes childNodeId with
      | some modelId =>
        if modelId < numModels then
          acc ++ [(modelId, translation, rotation, name)]
        else acc
      | none => acc) []
  if fromGraph = [] ∧ numModels ≠ 0 then
    (List.range numModels).map fun i => (i, ((0 : Int), 0, 0), (0 : Int), modelName i)
  else fromGraph

/-- Embedding of `vox_reader.read_vox_scene` on the bytes read from the
file.  The unsupported-version branch only prints a warning, so the version
value does not influence the result beyond having to occupy 4 bytes. -/
def read_vox_scene (data : List Nat) : Except String VoxScene :=
  if pySlice data 0 4 ≠ VOXtag then
    .error "Not a valid VOX file"
  else do
    let _version ← unpack32 data 4
    let chunks := parseChunks data
    let (models, palette) ← extractGeom chunks
    let (transforms, shapes) ← extractSceneGraphGo chunks [] []
    let instances := buildInstances transforms shapes models.length
    .ok ⟨models, palette, instances⟩

/-- Embedding of `vox_reader.read_vox_file`. -/
def read_vox_file (data : List Nat) : Except String VoxelData := do
  let scene ← read_vox_scene data
  match scene.models with
  | [] =>
    .ok ⟨1, 1, 1, [],
      if scene.palette = [] then get_default_palette else scene.palette⟩
  | model :: _ =>
    .ok ⟨model.size_x, model.size_y, model.size_z, model.voxels, scene.palette⟩

/-- Embedding of `vox_reader.get_voxel_color`: out-of-range indices return
default white; in-range indices do a Python list access that raises
`IndexError` when the palette is shorter. -/
def get_voxel_color (voxel_data : VoxelData) (color_index : Int) :
    Except String (Nat × Nat × Nat × Nat) :=
  if 1 ≤ color_index ∧ color_index ≤ 255 then
    match voxel_data.palette.get? (color_index - 1).toNat with
    | some c => .ok c
    | none => .error "IndexError: list index out of range"
  else
    .ok (255, 255, 255, 255)

end VoxR

namespace VoxI

/-- Python list item assignment `l[i] = v`: indices in `[-len, len)` are
valid (negative indices wrap from the end), anything else raises
`IndexError`. -/
def listSetPy (l : List Int) (i : Int) (v : Int) : Except String (List Int) :=
  if 0 ≤ i ∧ i < (l.length : Int) then .ok (l.set i.toNat v)
  else if -(l.length : Int) ≤ i ∧ i < 0 then
    .ok (l.set (i + l.length).toNat v)
  else .error "IndexError: list assignment index out of range"

/-- Embedding of the matrix-building part of `apply_vox_rotation` (the code
after the early return).  Python `n & 0x3` equals floor-mod by 4, `n >> k`
equals floor-division by `2^k`, and `(n >> k) & 0x1` is truthy exactly when
that floor-mod-2 is 1, for every (possibly negative) int `n`. -/
def buildVoxMat (rotationIndex : Int) : Except String (List (List Int)) := do
  let idx1 := rotationIndex.emod 4
  let idx2 := (rotationIndex.fdiv 4).emod 4
  let sign1 : Int := if (rotationIndex.fdiv 16).emod 2 = 1 then -1 else 1
  let sign2 : Int := if (rotationIndex.fdiv 32).emod 2 = 1 then -1 else 1
  let sign3 : Int := if (rotationIndex.fdiv 64).emod 2 = 1 then -1 else 1
  let idx3 := 3 - idx1 - idx2
  let row0 ← listSetPy [0, 0, 0] idx1 sign1
  let row1 ← listSetPy [0, 0, 0] idx2 sign2
  let row2 ← listSetPy [0, 0, 0] idx3 sign3
  .ok [row0, row1, row2]

/-- Embedding of `apply_vox_rotation`.  The Blender object's rotation state
is abstracted as the rotation matrix last applied to it: the source stores
`rot_matrix.to_euler()`, a host-side conversion of exactly this matrix, and
the claims concern only the decoded matrix and the code-0 early return. -/
def apply_vox_rotation (rotationIndex : Int)
    (objRotation : List (List Int)) : Except String (List (List Int)) :=
  if rotationIndex = 0 then .ok objRotation
  else do
    let mat ← buildVoxMat rotationIndex
    .ok mat

/-- One row (or column) of a signed permutation matrix: exactly one nonzero
entry, and every entry in `{-1, 0, 1}`. -/
def spRow (r : List Int) : Bool :=
  decide ((r.filter fun v => v ≠ 0).length = 1) &&
    r.all fun v => decide (v = 0 ∨ v = 1 ∨ v = -1)

/-- Column `j` of a row-list matrix. -/
def matCol (m : List (List Int)) (j : Nat) : List Int :=
  m.map fun r => r.getD j 0

/-- Decidable check that a 3x3 integer matrix is a signed permutation
matrix: one entry of ±1 in every row and in every column. -/
def isSignedPerm (m : List (List Int)) : Bool :=
  decide (m.length = 3) && (m.all fun r => decide (r.length = 3)) &&
    (m.all spRow) && ((List.range 3).all fun j => spRow (matCol m j))

/-- The identity rotation matrix, the default rotation of a fresh object. -/
def idMat : List (List Int) := [[1, 0, 0], [0, 1, 0], [0, 0, 1]]

end VoxI

namespace VoxE

/-- An RGB color as handled by the exporter. -/
abbrev Color := Int × Int × Int

/-- Squared Euclidean RGB distance.  The source computes
`math.sqrt(sum((a-b)**2))` as a float and only ever compares distances;
square root is strictly monotone, so comparing the squared integer
distances is the same comparison (float rounding aside, which no claim
exercises). -/
def distSq (c1 c2 : Color) : Int :=
  (c1.1 - c2.1) ^ 2 + (c1.2.1 - c2.2.1) ^ 2 + (c1.2.2 - c2.2.2) ^ 2

/-- Distinct elements helper: `seen` accumulates already-emitted colors. -/
def pyUniqueGo (seen : List Color) : List Color → List Color
  | [] => []
  | c :: rest =>
    if c ∈ seen then pyUniqueGo seen rest
    else c :: pyUniqueGo (c :: seen) rest

/-- Model of `list(set(colors))`: the distinct colors of the list.  CPython
leaves the set's iteration order unspecified; we model it as first-occurrence
order, and the claims proved about it are order-independent. -/
def pyUnique (l : List Color) : List Color := pyUniqueGo [] l

/-- Integer-truncated average of a color box, `sum // len` per channel
(Python `//` is floor division). -/
def medianLeaf (box : List Color) : List Color :=
  match box with
  | [] => [(180, 180, 180)]
  | _ =>
    [((box.map fun c : Color => c.1).sum.fdiv (box.length : Int),
      (box.map fun c : Color => c.2.1).sum.fdiv (box.length : Int),
      (box.map fun c : Color => c.2.2).sum.fdiv (box.length : Int))]

/-- Maximum of a nonempty integer list (`max()`); the empty case is
unreachable behind the `len(box) <= 1` guard. -/
def listMax : List Int → Int
  | [] => 0
  | x :: xs => xs.foldl max x

/-- Minimum of a nonempty integer list (`min()`). -/
def listMin : List Int → Int
  | [] => 0
  | x :: xs => xs.foldl min x

/-- Embedding of the recursive `median_cut`: at depth 0 or on boxes of at
most one color, collapse to the average; otherwise sort stably by the
widest channel (Python `sorted` is a stable ascending sort by key) and
split at the median index. -/
def medianCut : Nat → List Color → List Color
  | 0, box => medianLeaf box
  | depth + 1, box =>
    if box.length ≤ 1 then medianLeaf box
    else
      let rRange := listMax (box.map (·.1)) - listMin (box.map (·.1))
      let gRange := listMax (box.map (·.2.1)) - listMin (box.map (·.2.1))
      let bRange := listMax (box.map (·.2.2)) - listMin (box.map (·.2.2))
      let key : Color → Int :=
        if rRange ≥ gRange ∧ rRange ≥ bRange then (·.1)
        else if gRange ≥ bRange then (·.2.1)
        else (·.2.2)
      let sortedBox := box.mergeSort fun a b => decide (key a ≤ key b)
      let mid := sortedBox.length / 2
      medianCut depth (sortedBox.take mid) ++ medianCut depth (sortedBox.drop mid)

/-- Scan of `enumerate(palette)` keeping the first index of strictly
smallest distance; `best_dist` starts at float infinity, modelled as
`none`. -/
def closestIdx (palette : List Color) (c : Color) : Nat :=
  (palette.foldl (fun st p =>
      match st with
      | (i, bestIdx, bestDist) =>
        match bestDist with
        | none => (i + 1, i, some (distSq c p))
        | some d =>
          if distSq c p < d then (i + 1, i, some (distSq c p))
          else (i + 1, bestIdx, some d))
    ((0 : Nat), (0 : Nat), (none : Option Int))).2.1

/-- Embedding of `vox_exporter.quantize_colors`.  `depth` is
`int(math.log2(max_colors))`, which for the integer arguments reachable
here (1 ≤ max_colors ≤ 255, and the branch needs ≥ 2 distinct colors)
equals `Nat.log2 max_colors`. -/
def quantize_colors (colors : List Color) (max_colors : Nat) :
    List Color × List (Color × Nat) :=
  if colors = [] then ([(180, 180, 180)], [((180, 180, 180), 1)])
  else
    let uniqueColors := pyUnique colors
    if uniqueColors.length ≤ max_colors then
      (uniqueColors, uniqueColors.enum.map fun p => (p.2, p.1 + 1))
    else
      let depth := Nat.log2 max_colors
      let palette := (medianCut depth uniqueColors).take max_colors
      (palette, uniqueColors.map fun c => (c, closestIdx palette c + 1))

end VoxE

/-! Proof-support definitions: canonical chunk encodings, byte conversions,
spec-modelled pairing, and the concrete streams used by counterexamples. -/

/-- The tuple of `Nat`s a valid `(Int, Int, Int, Int)` voxel or color packs
to. -/
def quadToNat (q : Int × Int × Int × Int) : Nat × Nat × Nat × Nat :=
  (q.1.toNat, q.2.1.toNat, q.2.2.1.toNat, q.2.2.2.toNat)

/-- Concatenated `'<BBBB'` packings of a quadruple list. -/
def natQuadBytes : List (Nat × Nat × Nat × Nat) → List Nat
  | [] => []
  | (a, b, c, d) :: rest => a :: b :: c :: d :: natQuadBytes rest

/-- A chunk as laid out in the byte stream: 4-byte id, `u32` content length,
a `u32` declared-children length (ignored by the linear reader), then the
content bytes. -/
structure RawChunk where
  id : List Nat
  content : List Nat
  declaredChildren : Nat := 0

/-- Byte encoding of one raw chunk. -/
def encChunk (c : RawChunk) : List Nat :=
  c.id ++ u32b c.content.length ++ u32b c.declaredChildren ++ c.content

/-- Byte encoding of a chunk sequence. -/
def encChunks : List RawChunk → List Nat
  | [] => []
  | c :: rest => encChunk c ++ encChunks rest

/-- The parsed form of a raw chunk. -/
def RawChunk.toR (c : RawChunk) : VoxR.RChunk := ⟨c.id, c.content⟩

/-- Well-formedness needed for a raw chunk to parse back to itself. -/
def rawWF (c : RawChunk) : Prop :=
  c.id.length = 4 ∧ c.content.length < 4294967296

/-- The chunk scan with canonical fuel (enough for any position). -/
def parseFrom (data : List Nat) (pos : Nat) : List VoxR.RChunk :=
  VoxR.parseChunksGo data pos data.length

/-- Modelled from the amended C6 claim: each XYZI chunk is paired with the
most recent preceding SIZE chunk, which stays pending (so one SIZE can
build several models); an XYZI with no preceding SIZE builds no model and
no size is fabricated for it. -/
def modelsByLatestSize : List VoxR.RChunk → Option (Nat × Nat × Nat) →
    Except String (List VoxR.RVoxModel)
  | [], _ => .ok []
  | c :: rest, pending =>
    if c.id = SIZEtag then do
      let s ← VoxR.unpackIII c.content
      modelsByLatestSize rest (some s)
    else if c.id = XYZItag then do
      let n ← unpack32 c.content 0
      let vs ← VoxR.readQuads c.content 4 n
      match pending with
      | some (sx, sy, sz) => do
        let ms ← modelsByLatestSize rest pending
        .ok ({ size_x := sx, size_y := sy, size_z := sz, voxels := vs } :: ms)
      | none => modelsByLatestSize rest pending
    else modelsByLatestSize rest pending

/-- Stream for the C6 counterexample: one SIZE chunk followed by two XYZI
chunks (each with zero voxels). -/
def c6data : List Nat :=
  VOXtag ++ u32b 150 ++
    encChunk ⟨SIZEtag, u32b 1 ++ u32b 1 ++ u32b 1, 0⟩ ++
    encChunk ⟨XYZItag, u32b 0, 0⟩ ++
    encChunk ⟨XYZItag, u32b 0, 0⟩

/-- Stream for the C9 counterexample: a fully parsed SIZE/XYZI pair followed
by 5 trailing bytes (a truncated chunk header). -/
def c9data : List Nat :=
  VOXtag ++ u32b 150 ++
    encChunk ⟨SIZEtag, u32b 1 ++ u32b 1 ++ u32b 1, 0⟩ ++
    encChunk ⟨XYZItag, u32b 1 ++ [0, 0, 0, 1], 0⟩ ++
    [0, 0, 0, 0, 0]

/-- Stream for the C10 counterexample: valid magic, no SIZE/XYZI chunks,
and an RGBA chunk whose 4-byte content is too short for the 256-entry
palette loop. -/
def c10data : List Nat :=
  VOXtag ++ u32b 150 ++ encChunk ⟨RGBAtag, [1, 2, 3, 4], 0⟩

/-! Shared helper lemmas. -/

theorem pyUniqueGo_mem (l : List VoxE.Color) :
    ∀ seen c, c ∈ VoxE.pyUniqueGo seen l ↔ c ∈ l ∧ c ∉ seen := by
  induction l with
  | nil => simp [VoxE.pyUniqueGo]
  | cons d rest ih =>
    intro seen c
    simp only [VoxE.pyUniqueGo]
    split_ifs with hd
    · rw [ih]
      by_cases hc : c = d <;> simp [hc, hd]
    · by_cases hc : c = d
      · subst hc; simp [hd]
      · simp only [List.mem_cons, ih, List.mem_cons]
        constructor
        · rintro (h | ⟨h1, h2⟩)
          · exact absurd h hc
          · exact ⟨Or.inr h1, fun hs => h2 (Or.inr hs)⟩
        · rintro ⟨h1 | h1, h2⟩
          · exact absurd h1 hc
          · exact Or.inr ⟨h1, fun hs => h2 (by rcases hs with h | h; exact absurd h hc; exact h)⟩

theorem pyUniqueGo_nodup (l : List VoxE.Color) :
    ∀ seen, (VoxE.pyUniqueGo seen l).Nodup := by
  induction l with
  | nil => intro seen; simp [VoxE.pyUniqueGo]
  | cons d rest ih =>
    intro seen
    simp only [VoxE.pyUniqueGo]
    split_ifs with hd
    · exact ih seen
    · rw [List.nodup_cons]
      refine ⟨fun hmem => ?_, ih (d :: seen)⟩
      rw [pyUniqueGo_mem] at hmem
      exact hmem.2 (by simp)

theorem dictGet_enumFrom_map (pal : List VoxE.Color) :
    ∀ k j c, pal.Nodup → pal.get? j = some c →
      VoxR.dictGet ((pal.enumFrom k).map fun q => (q.2, q.1 + 1)) c =
        some (k + j + 1) := by
  induction pal with
  | nil => intro k j c _ h; simp at h
  | cons p rest ih =>
    intro k j c hnd h
    rw [List.nodup_cons] at hnd
    cases j with
    | zero =>
      simp only [List.get?] at h
      injection h with h; subst h
      simp [VoxR.dictGet, List.enumFrom, List.find?]
    | succ j' =>
      have h' : rest.get? j' = some c := by simpa using h
      have hc : c ∈ rest := List.get?_mem h'
      have hne : p ≠ c := fun he => hnd.1 (he ▸ hc)
      have := ih (k + 1) j' c hnd.2 h'
      simp only [List.enumFrom, List.map_cons]
      simp only [VoxR.dictGet, List.find?] at this ⊢
      rw [show (decide (p = c)) = false from by simp [hne]]
      simpa [Nat.add_assoc, Nat.add_comm, Nat.add_left_comm] using this

/-! Claim C2. -/

/-- C2: `add_voxel` raises exactly when some coordinate is outside [0,255]
or the color index is outside [1,255]; the check happens before the append,
so a rejected call produces no state change (in this embedding, an error
and no updated model), and a valid call never raises and appends exactly
the given voxel. -/
theorem C2_add_voxel_validation (m : VoxW.VoxModel) (x y z ci : Int) :
    (¬ (0 ≤ x ∧ x < 256 ∧ 0 ≤ y ∧ y < 256 ∧ 0 ≤ z ∧ z < 256 ∧
        1 ≤ ci ∧ ci ≤ 255) →
      (m.add_voxel x y z ci).isOk = false) ∧
    ((0 ≤ x ∧ x < 256 ∧ 0 ≤ y ∧ y < 256 ∧ 0 ≤ z ∧ z < 256 ∧
        1 ≤ ci ∧ ci ≤ 255) →
      m.add_voxel x y z ci =
        .ok { m with voxels := m.voxels ++ [(x, y, z, ci)] }) := by
  unfold VoxW.VoxModel.add_voxel
  constructor <;> intro h <;> split_ifs with h1 h2 <;> first | rfl | tauto

/-- Witness for C2 at concrete inputs: coordinate 300 is rejected, a valid
voxel is appended. -/
theorem C2_add_voxel_validation_witness :
    ((VoxW.VoxModel.add_voxel {} 300 0 0 1).isOk = false) ∧
    (VoxW.VoxModel.add_voxel {} 1 2 3 4 =
      .ok { voxels := [(1, 2, 3, 4)] }) :=
  ⟨(C2_add_voxel_validation {} 300 0 0 1).1 (by decide),
   (C2_add_voxel_validation {} 1 2 3 4).2 (by decide)⟩

/-! Claim C3. -/

/-- C3: for the model of size (2,2,2) with single voxel (0,0,0,1), the SIZE
chunk content is exactly the 12 bytes 02 00 00 00 02 00 00 00 02 00 00 00
and the XYZI chunk content is exactly the 8 bytes 01 00 00 00 00 00 00 01. -/
theorem C3_example_chunk_bytes :
    VoxW.VoxModel.get_size_chunk
        { size_x := 2, size_y := 2, size_z := 2, voxels := [(0, 0, 0, 1)] } =
      some ⟨SIZEtag, [2, 0, 0, 0, 2, 0, 0, 0, 2, 0, 0, 0], []⟩ ∧
    VoxW.VoxModel.get_xyzi_chunk
        { size_x := 2, size_y := 2, size_z := 2, voxels := [(0, 0, 0, 1)] } =
      some ⟨XYZItag, [1, 0, 0, 0, 0, 0, 0, 1], []⟩ := by
  constructor <;> rfl

/-! Claim C8. -/

/-- C8 counterexample: reading a color for an out-of-range index is not an
error; `get_voxel_color` returns default white (255,255,255,255) for
indices 0 and 300. -/
theorem C8_counterexample_get_returns_white :
    VoxR.get_voxel_color ⟨1, 1, 1, [], VoxR.get_default_palette⟩ 0 =
      .ok (255, 255, 255, 255) ∧
    VoxR.get_voxel_color ⟨1, 1, 1, [], VoxR.get_default_palette⟩ 300 =
      .ok (255, 255, 255, 255) := by
  constructor <;> rfl

/-- C8 amended: `set_color` raises for every index outside [1,255] and
leaves the palette unchanged (error before mutation), and accepts in-range
indices; `get_voxel_color` returns the stored color for an in-range index
present in the palette, but for an out-of-range index it returns default
white rather than raising. -/
theorem C8_palette_range_checks (p : VoxW.VoxPalette) (index r g b a : Int)
    (vd : VoxR.VoxelData) :
    (¬ (1 ≤ index ∧ index ≤ 255) →
      (p.set_color index r g b a).isOk = false ∧
      VoxR.get_voxel_color vd index = .ok (255, 255, 255, 255)) ∧
    ((1 ≤ index ∧ index ≤ 255) →
      p.set_color index r g b a =
        .ok ⟨p.colors.set index.toNat (r, g, b, a)⟩ ∧
      ∀ c, vd.palette.get? (index - 1).toNat = some c →
        VoxR.get_voxel_color vd index = .ok c) := by
  constructor
  · intro h
    refine ⟨?_, ?_⟩
    · simp [VoxW.VoxPalette.set_color, h, Except.isOk, Except.toBool]
    · simp [VoxR.get_voxel_color, h]
  · intro h
    refine ⟨?_, ?_⟩
    · simp [VoxW.VoxPalette.set_color, h]
    · intro c hc
      rw [show (index - 1).toNat = index.toNat - 1 from by omega] at hc
      rw [List.get?_eq_getElem?] at hc
      simp [VoxR.get_voxel_color, h, hc]

/-- Witness for C8 amended at concrete inputs: index 0 rejected by
`set_color` and answered white by `get_voxel_color`; index 5 accepted. -/
theorem C8_palette_range_checks_witness :
    ((VoxW.VoxPalette.set_color VoxW.VoxPalette.new 0 1 2 3 4).isOk = false ∧
      VoxR.get_voxel_color ⟨1, 1, 1, [], [(7, 8, 9, 10)]⟩ 0 =
        .ok (255, 255, 255, 255)) ∧
    (VoxW.VoxPalette.set_color VoxW.VoxPalette.new 5 1 2 3 4 =
        .ok ⟨VoxW.defaultColors.set 5 (1, 2, 3, 4)⟩ ∧
      VoxR.get_voxel_color ⟨1, 1, 1, [], [(7, 8, 9, 10)]⟩ 1 =
        .ok (7, 8, 9, 10)) := by
  refine ⟨(C8_palette_range_checks VoxW.VoxPalette.new 0 1 2 3 4
      ⟨1, 1, 1, [], [(7, 8, 9, 10)]⟩).1 (by decide), ?_, ?_⟩
  · exact ((C8_palette_range_checks VoxW.VoxPalette.new 5 1 2 3 4
      ⟨1, 1, 1, [], [(7, 8, 9, 10)]⟩).2 (by decide)).1
  · exact ((C8_palette_range_checks VoxW.VoxPalette.new 1 1 2 3 4
      ⟨1, 1, 1, [], [(7, 8, 9, 10)]⟩).2 (by decide)).2 _ rfl

/-! Claim C7. -/

/-- C7 counterexample: rotation code 5 (in 0-23) decodes to a matrix whose
three nonzero entries all lie in column 1, not a signed permutation matrix;
and rotation code 3 (also in 0-23) does not decode at all (IndexError). -/
theorem C7_counterexample_codes_3_and_5 :
    VoxI.buildVoxMat 5 = .ok [[0, 1, 0], [0, 1, 0], [0, 1, 0]] ∧
    VoxI.isSignedPerm [[0, 1, 0], [0, 1, 0], [0, 1, 0]] = false ∧
    (VoxI.buildVoxMat 3).isOk = false := by
  exact ⟨rfl, rfl, rfl⟩

/-- C7 amended: for every rotation code below 24 whose row-0 and row-1
column selectors (bits 0-1 and 2-3) are at most 2 and distinct, the decoded
matrix is a signed permutation matrix with exactly one ±1 entry in every
row and column; and applying code 0 is a no-op that leaves the object's
rotation unchanged. -/
theorem C7_valid_codes_signed_perm :
    (∀ n : Nat, n < 24 → n % 4 ≤ 2 → n / 4 % 4 ≤ 2 → n % 4 ≠ n / 4 % 4 →
      (VoxI.buildVoxMat (n : Int)).toOption.map VoxI.isSignedPerm =
        some true) ∧
    (∀ rot, VoxI.apply_vox_rotation 0 rot = .ok rot) := by
  refine ⟨by decide, fun rot => rfl⟩

/-- Witness for C7 amended: code 4 decodes to a signed permutation matrix
(the identity), and code 0 leaves the identity rotation untouched. -/
theorem C7_valid_codes_signed_perm_witness :
    (VoxI.buildVoxMat ((4 : Nat) : Int)).toOption.map VoxI.isSignedPerm =
      some true ∧
    VoxI.apply_vox_rotation 0 VoxI.idMat = .ok VoxI.idMat :=
  ⟨C7_valid_codes_signed_perm.1 4 (by decide) (by decide) (by decide)
      (by decide),
   C7_valid_codes_signed_perm.2 VoxI.idMat⟩

/-! Claim C4. -/

/-- C4 counterexample: on the empty color list (which has 0 ≤ max_colors
distinct colors) `quantize_colors` returns the gray palette
[(180,180,180)], which is not the (empty) set of distinct input colors. -/
theorem C4_counterexample_empty_list :
    VoxE.quantize_colors [] 255 =
      ([(180, 180, 180)], [((180, 180, 180), 1)]) ∧
    ((180, 180, 180) : VoxE.Color) ∉ ([] : List VoxE.Color) := by
  exact ⟨rfl, by simp⟩

/-- C4 amended: for every nonempty color list whose number of distinct
colors is at most max_colors, the palette is exactly the distinct input
colors (no duplicates, same membership), and the mapping sends the color at
palette position j to index j+1 in [1, palette length] — every color maps
to itself. -/
theorem C4_quantize_small_is_identity (colors : List VoxE.Color)
    (max_colors : Nat) (hne : colors ≠ [])
    (hle : (VoxE.pyUnique colors).length ≤ max_colors) :
    (VoxE.quantize_colors colors max_colors).1 = VoxE.pyUnique colors ∧
    (VoxE.quantize_colors colors max_colors).1.Nodup ∧
    (∀ c, c ∈ (VoxE.quantize_colors colors max_colors).1 ↔ c ∈ colors) ∧
    (∀ j c, (VoxE.quantize_colors colors max_colors).1.get? j = some c →
      VoxR.dictGet (VoxE.quantize_colors colors max_colors).2 c =
          some (j + 1) ∧
      1 ≤ j + 1 ∧
      j + 1 ≤ (VoxE.quantize_colors colors max_colors).1.length) := by
  have hq : VoxE.quantize_colors colors max_colors =
      (VoxE.pyUnique colors,
        (VoxE.pyUnique colors).enum.map fun p => (p.2, p.1 + 1)) := by
    simp [VoxE.quantize_colors, hne, hle]
  rw [hq]
  refine ⟨rfl, pyUniqueGo_nodup colors [], fun c => ?_, fun j c hj => ?_⟩
  · rw [VoxE.pyUnique, pyUniqueGo_mem]
    simp
  · have hnd : (VoxE.pyUnique colors).Nodup := pyUniqueGo_nodup colors []
    have hlen : j < (VoxE.pyUnique colors).length :=
      (List.get?_eq_some.mp hj).1
    have := dictGet_enumFrom_map (VoxE.pyUnique colors) 0 j c hnd hj
    exact ⟨by simpa [List.enum] using this, Nat.le_add_left 1 j,
      Nat.succ_le_of_lt hlen⟩

/-- Witness for C4 amended at a concrete input with a duplicate color. -/
theorem C4_quantize_small_is_identity_witness :
    (VoxE.quantize_colors [(1, 2, 3), (1, 2, 3), (9, 9, 9)] 255).1 =
      VoxE.pyUnique [(1, 2, 3), (1, 2, 3), (9, 9, 9)] ∧
    (VoxE.quantize_colors [(1, 2, 3), (1, 2, 3), (9, 9, 9)] 255).1.Nodup ∧
    (∀ c, c ∈ (VoxE.quantize_colors [(1, 2, 3), (1, 2, 3), (9, 9, 9)] 255).1 ↔
      c ∈ [((1 : Int), (2 : Int), (3 : Int)), (1, 2, 3), (9, 9, 9)]) ∧
    (∀ j c,
      (VoxE.quantize_colors [(1, 2, 3), (1, 2, 3), (9, 9, 9)] 255).1.get? j =
        some c →
      VoxR.dictGet
          (VoxE.quantize_colors [(1, 2, 3), (1, 2, 3), (9, 9, 9)] 255).2 c =
        some (j + 1) ∧
      1 ≤ j + 1 ∧
      j + 1 ≤
        (VoxE.quantize_colors [(1, 2, 3), (1, 2, 3), (9, 9, 9)] 255).1.length) :=
  C4_quantize_small_is_identity [(1, 2, 3), (1, 2, 3), (9, 9, 9)] 255
    (by decide) (by decide)

/-! Parsing infrastructure lemmas. -/

theorem u32of_u32b (n : Nat) (h : n < 4294967296) : u32of (u32b n) = n := by
  simp only [u32of, u32b]
  omega

theorem pySlice_append_ge (p rest : List Nat) (pos k : Nat)
    (h : p.length ≤ pos) :
    pySlice (p ++ rest) pos k = pySlice rest (pos - p.length) k := by
  have hd : (p ++ rest).drop pos = rest.drop (pos - p.length) := by
    conv_lhs => rw [show pos = p.length + (pos - p.length) from by omega]
    exact List.drop_append _
  unfold pySlice
  rw [hd]

theorem parseChunksGo_fuel (data : List Nat) :
    ∀ fuel₁ fuel₂ pos, data.length ≤ pos + 12 * fuel₁ →
      data.length ≤ pos + 12 * fuel₂ →
      VoxR.parseChunksGo data pos fuel₁ = VoxR.parseChunksGo data pos fuel₂ := by
  intro fuel₁
  induction fuel₁ with
  | zero =>
    intro fuel₂ pos h1 _
    cases fuel₂ with
    | zero => rfl
    | succ f =>
      simp only [VoxR.parseChunksGo]
      rw [if_neg (by omega)]
  | succ f ih =>
    intro fuel₂ pos h1 h2
    cases fuel₂ with
    | zero =>
      simp only [VoxR.parseChunksGo]
      rw [if_neg (by omega)]
    | succ f₂ =>
      simp only [VoxR.parseChunksGo]
      by_cases hp : pos < data.length
      · by_cases h12 : data.length < pos + 12
        · rw [if_pos hp, if_pos hp, if_pos h12, if_pos h12]
        · rw [if_pos hp, if_pos hp, if_neg h12, if_neg h12]
          congr 1
          exact ih f₂ _ (by omega) (by omega)
      · rw [if_neg hp, if_neg hp]

theorem parseFrom_unfold (data : List Nat) (pos : Nat) :
    parseFrom data pos =
      if pos < data.length then
        if data.length < pos + 12 then []
        else
          (⟨pySlice data pos 4,
            pySlice data (pos + 12) (u32of (pySlice data (pos + 4) 4))⟩ :
              VoxR.RChunk) ::
            parseFrom data (pos + 12 + u32of (pySlice data (pos + 4) 4))
      else [] := by
  have h1 : parseFrom data pos =
      VoxR.parseChunksGo data pos (data.length + 1) :=
    parseChunksGo_fuel data data.length (data.length + 1) pos (by omega)
      (by omega)
  rw [h1]
  simp only [VoxR.parseChunksGo]
  by_cases hp : pos < data.length
  · by_cases h12 : data.length < pos + 12
    · rw [if_pos hp, if_pos hp, if_pos h12, if_pos h12]
    · rw [if_pos hp, if_pos hp, if_neg h12, if_neg h12]
      congr 1
  · rw [if_neg hp, if_neg hp]

theorem parseChunksGo_prefix (p₁ p₂ rest : List Nat)
    (hlen : p₁.length = p₂.length) :
    ∀ fuel pos, p₁.length ≤ pos →
      VoxR.parseChunksGo (p₁ ++ rest) pos fuel =
        VoxR.parseChunksGo (p₂ ++ rest) pos fuel := by
  intro fuel
  induction fuel with
  | zero => intro pos _; rfl
  | succ f ih =>
    intro pos h
    have hL : (p₂ ++ rest).length = (p₁ ++ rest).length := by
      simp [hlen]
    have hs : ∀ q k, pySlice (p₁ ++ rest) q k = pySlice (p₂ ++ rest) q k ∨
        q < p₁.length := by
      intro q k
      by_cases hq : p₁.length ≤ q
      · left
        rw [pySlice_append_ge _ _ _ _ hq, pySlice_append_ge _ _ _ _ (hlen ▸ hq),
          hlen]
      · right; omega
    simp only [VoxR.parseChunksGo]
    rw [hL]
    by_cases hp : pos < (p₁ ++ rest).length
    · by_cases h12 : (p₁ ++ rest).length < pos + 12
      · rw [if_pos hp, if_pos hp, if_pos h12, if_pos h12]
      · rw [if_pos hp, if_pos hp, if_neg h12, if_neg h12]
        have e1 : pySlice (p₁ ++ rest) pos 4 = pySlice (p₂ ++ rest) pos 4 := by
          rcases hs pos 4 with h' | h'
          · exact h'
          · omega
        have e2 : pySlice (p₁ ++ rest) (pos + 4) 4 =
            pySlice (p₂ ++ rest) (pos + 4) 4 := by
          rcases hs (pos + 4) 4 with h' | h'
          · exact h'
          · omega
        have e3 : ∀ k, pySlice (p₁ ++ rest) (pos + 12) k =
            pySlice (p₂ ++ rest) (pos + 12) k := by
          intro k
          rcases hs (pos + 12) k with h' | h'
          · exact h'
          · omega
        rw [← e1, ← e2, ← e3]
        congr 1
        exact ih _ (by omega)
    · rw [if_neg hp, if_neg hp]

theorem length_u32b (n : Nat) : (u32b n).length = 4 := by
  simp [u32b]

theorem length_encChunk (c : RawChunk) (hid : c.id.length = 4) :
    (encChunk c).length = 12 + c.content.length := by
  simp [encChunk, length_u32b, hid]
  omega

theorem parseFrom_encChunks (cs : List RawChunk) :
    ∀ pre post : List Nat, (∀ c ∈ cs, rawWF c) →
      parseFrom (pre ++ encChunks cs ++ post) pre.length =
        cs.map RawChunk.toR ++
          parseFrom (pre ++ encChunks cs ++ post)
            (pre.length + (encChunks cs).length) := by
  induction cs with
  | nil =>
    intro pre post _
    simp [encChunks]
  | cons c rest ih =>
    intro pre post h
    have hwf := h c (by simp)
    have hid : c.id.length = 4 := hwf.1
    have hcl : c.content.length < 4294967296 := hwf.2
    have hdata : pre ++ encChunks (c :: rest) ++ post =
        (pre ++ encChunk c) ++ encChunks rest ++ post := by
      simp only [encChunks, List.append_assoc]
    rw [hdata]
    set data := (pre ++ encChunk c) ++ encChunks rest ++ post with hdef
    have hlenc : (encChunk c).length = 12 + c.content.length :=
      length_encChunk c hid
    have hdl : data.length =
        pre.length + (encChunk c).length + (encChunks rest).length +
          post.length := by
      simp [hdef]
      omega
    have e1 : data = (pre ++ c.id) ++
        (u32b c.content.length ++ (u32b c.declaredChildren ++ (c.content ++
          (encChunks rest ++ post)))) := by
      simp only [hdef, encChunk, List.append_assoc]
    have e2 : data = (pre ++ c.id ++ u32b c.content.length) ++
        (u32b c.declaredChildren ++ (c.content ++ (encChunks rest ++ post))) := by
      simp only [hdef, encChunk, List.append_assoc]
    have e3 : data =
        (pre ++ c.id ++ u32b c.content.length ++ u32b c.declaredChildren) ++
          (c.content ++ (encChunks rest ++ post)) := by
      simp only [hdef, encChunk, List.append_assoc]
    have hlen1 : (pre ++ c.id).length = pre.length + 4 := by simp [hid]
    have hlen3 :
        (pre ++ c.id ++ u32b c.content.length ++ u32b c.declaredChildren).length =
          pre.length + 12 := by
      simp [hid, length_u32b]
    have hslice_id : pySlice data pre.length 4 = c.id := by
      have hd : data.drop pre.length = c.id ++
          (u32b c.content.length ++ (u32b c.declaredChildren ++ (c.content ++
            (encChunks rest ++ post)))) := by
        conv_lhs => rw [e1]
        rw [show pre.length = (pre ++ c.id).length - 4 from by simp [hid]]
        rw [show (pre ++ c.id).length - 4 = pre.length from by simp [hid]]
        rw [show (pre ++ c.id) ++
            (u32b c.content.length ++ (u32b c.declaredChildren ++ (c.content ++
              (encChunks rest ++ post)))) = pre ++ (c.id ++
            (u32b c.content.length ++ (u32b c.declaredChildren ++ (c.content ++
              (encChunks rest ++ post))))) from by simp [List.append_assoc]]
        exact List.drop_left _ _
      unfold pySlice
      rw [hd]
      rw [show (4 : Nat) = c.id.length from hid.symm]
      exact List.take_left _ _
    have hslice_size : pySlice data (pre.length + 4) 4 =
        u32b c.content.length := by
      have hd : data.drop (pre.length + 4) =
          u32b c.content.length ++ (u32b c.declaredChildren ++ (c.content ++
            (encChunks rest ++ post))) := by
        conv_lhs => rw [e1, show pre.length + 4 = (pre ++ c.id).length from
          hlen1.symm]
        exact List.drop_left _ _
      unfold pySlice
      rw [hd]
      rw [show (4 : Nat) = (u32b c.content.length).length from
        (length_u32b _).symm]
      exact List.take_left _ _
    have hcsize : u32of (pySlice data (pre.length + 4) 4) = c.content.length := by
      rw [hslice_size]
      exact u32of_u32b _ hcl
    have hslice_content :
        pySlice data (pre.length + 12) c.content.length = c.content := by
      have hd : data.drop (pre.length + 12) =
          c.content ++ (encChunks rest ++ post) := by
        conv_lhs => rw [e3, show pre.length + 12 =
          (pre ++ c.id ++ u32b c.content.length ++
            u32b c.declaredChildren).length from hlen3.symm]
        exact List.drop_left _ _
      unfold pySlice
      rw [hd]
      conv_lhs => rw [show c.content.length = c.content.length from rfl]
      exact List.take_left _ _
    rw [parseFrom_unfold]
    rw [if_pos (by omega), if_neg (by omega)]
    rw [hcsize, hslice_id, hslice_content]
    have hpos : pre.length + 12 + c.content.length =
        (pre ++ encChunk c).length := by
      simp [hlenc]
      omega
    rw [hpos]
    have ihx := ih (pre ++ encChunk c) post (fun d hd => h d (by simp [hd]))
    rw [← hdef] at ihx
    rw [ihx]
    have hfinal : (pre ++ encChunk c).length + (encChunks rest).length =
        pre.length + (encChunks (c :: rest)).length := by
      simp [encChunks]
      omega
    rw [hfinal]
    simp [RawChunk.toR, encChunks]

/-! Claim C5. -/

/-- C5: a stream whose first four bytes are not 'VOX ' raises and produces
no scene, while a correct-magic stream with ANY version value — in
particular every value other than 150 or 200, such as 999 — parses exactly
as the same stream with accepted version 150: the version value only
triggers a warning, and every chunk after the header is still parsed into
the returned scene. -/
theorem C5_bad_magic_fatal_bad_version_warns :
    (∀ data : List Nat, pySlice data 0 4 ≠ VOXtag →
      (VoxR.read_vox_scene data).isOk = false) ∧
    (∀ (v : Nat) (rest : List Nat),
      VoxR.read_vox_scene (VOXtag ++ u32b v ++ rest) =
        VoxR.read_vox_scene (VOXtag ++ u32b 150 ++ rest)) := by
  constructor
  · intro data h
    unfold VoxR.read_vox_scene
    rw [if_pos h]
    rfl
  · intro v rest
    have hchunks : VoxR.parseChunks (VOXtag ++ u32b v ++ rest) =
        VoxR.parseChunks (VOXtag ++ u32b 150 ++ rest) := by
      unfold VoxR.parseChunks
      have hL : (VOXtag ++ u32b v ++ rest).length =
          (VOXtag ++ u32b 150 ++ rest).length := by
        simp [VOXtag, length_u32b]
      rw [hL]
      exact parseChunksGo_prefix (VOXtag ++ u32b v) (VOXtag ++ u32b 150)
        rest (by simp [VOXtag, length_u32b]) _ 8 (by simp [VOXtag, length_u32b])
    have hv1 : unpack32 (VOXtag ++ u32b v ++ rest) 4 =
        .ok (u32of (u32b v)) := rfl
    have hv2 : unpack32 (VOXtag ++ u32b 150 ++ rest) 4 = .ok 150 := rfl
    unfold VoxR.read_vox_scene
    rw [if_neg (fun hcon => hcon rfl), if_neg (fun hcon => hcon rfl)]
    rw [hv1, hv2]
    simp only [bind, Except.instMonad, Except.bind]
    rw [hchunks]

/-- Witness for C5 at concrete inputs: an all-zero stream has bad magic and
fails; the version-999 and version-150 headers with no chunks parse alike. -/
theorem C5_bad_magic_fatal_bad_version_warns_witness :
    (VoxR.read_vox_scene [0, 0, 0, 0]).isOk = false ∧
    VoxR.read_vox_scene (VOXtag ++ u32b 999 ++ []) =
      VoxR.read_vox_scene (VOXtag ++ u32b 150 ++ []) :=
  ⟨C5_bad_magic_fatal_bad_version_warns.1 [0, 0, 0, 0] (by decide),
   C5_bad_magic_fatal_bad_version_warns.2 999 []⟩

/-! Claim C6. -/

/-- C6 counterexample: the stream SIZE(1,1,1), XYZI, XYZI (one SIZE chunk,
two XYZI chunks) builds TWO models, both with the same SIZE dimensions — a
single SIZE chunk is not paired with exactly the next XYZI chunk, because
the pending size is never cleared. -/
theorem C6_counterexample_one_size_two_models :
    (VoxR.read_vox_scene c6data).toOption.map
        (fun s => (s.models.length,
          s.models.map fun m => (m.size_x, m.size_y, m.size_z))) =
      some (2, [(1, 1, 1), (1, 1, 1)]) := rfl

/-- Helper: the first chunk-processing loop appends exactly the models that
latest-preceding-SIZE pairing produces. -/
theorem extractGeomGo_models_spec (chunks : List VoxR.RChunk) :
    ∀ pending acc pal ms pal',
      VoxR.extractGeomGo chunks pending acc pal = .ok (ms, pal') →
      ∃ suffix, ms = acc ++ suffix ∧
        modelsByLatestSize chunks pending = .ok suffix := by
  induction chunks with
  | nil =>
    intro pending acc pal ms pal' h
    simp only [VoxR.extractGeomGo] at h
    injection h with h
    injection h with ha hb
    refine ⟨[], ?_, rfl⟩
    rw [← ha]
    simp
  | cons c rest ih =>
    intro pending acc pal ms pal' h
    simp only [VoxR.extractGeomGo] at h
    simp only [modelsByLatestSize]
    by_cases h1 : c.id = SIZEtag
    · rw [if_pos h1] at h ⊢
      cases hs : VoxR.unpackIII c.content with
      | error e =>
        rw [hs] at h
        simp only [bind, Except.instMonad, Except.bind] at h
        exact Except.noConfusion h
      | ok s =>
        rw [hs] at h
        simp only [bind, Except.instMonad, Except.bind] at h
        obtain ⟨suffix, hms, hml⟩ := ih _ _ _ _ _ h
        exact ⟨suffix, hms, hml⟩
    · rw [if_neg h1] at h ⊢
      by_cases h2 : c.id = XYZItag
      · rw [if_pos h2] at h ⊢
        cases hn : unpack32 c.content 0 with
        | error e =>
          rw [hn] at h
          simp only [bind, Except.instMonad, Except.bind] at h
          exact Except.noConfusion h
        | ok n =>
          rw [hn] at h
          simp only [bind, Except.instMonad, Except.bind] at h ⊢
          cases hq : VoxR.readQuads c.content 4 n with
          | error e =>
            rw [hq] at h
            simp only [bind, Except.instMonad, Except.bind] at h
            exact Except.noConfusion h
          | ok vs =>
            rw [hq] at h
            simp only [bind, Except.instMonad, Except.bind] at h ⊢
            cases pending with
            | none =>
              obtain ⟨suffix, hms, hml⟩ := ih _ _ _ _ _ h
              exact ⟨suffix, hms, hml⟩
            | some sz =>
              obtain ⟨sx, sy, sz2⟩ := sz
              obtain ⟨suffix, hms, hml⟩ := ih _ _ _ _ _ h
              refine ⟨{ size_x := sx, size_y := sy, size_z := sz2, voxels := vs } :: suffix, ?_, ?_⟩
              · rw [hms]
                simp
              · rw [hml]
      · rw [if_neg h2] at h ⊢
        by_cases h3 : c.id = RGBAtag
        · rw [if_pos h3] at h
          cases hp : VoxR.readQuads c.content 0 256 with
          | error e =>
            rw [hp] at h
            simp only [bind, Except.instMonad, Except.bind] at h
            exact Except.noConfusion h
          | ok p =>
            rw [hp] at h
            simp only [bind, Except.instMonad, Except.bind] at h
            obtain ⟨suffix, hms, hml⟩ := ih _ _ _ _ _ h
            exact ⟨suffix, hms, hml⟩
        · rw [if_neg h3] at h
          exact ih _ _ _ _ _ h

/-- C6 amended: each XYZI chunk is paired with the most recent preceding
SIZE chunk — the pending size is not cleared, so one SIZE chunk can build
several models — and an XYZI chunk with no preceding SIZE chunk produces no
VoxelModel and no size is ever fabricated for it (it is silently skipped,
not raised).  Formally, whenever the geometry pass succeeds, its model list
equals the latest-preceding-SIZE pairing of the chunk list. -/
theorem C6_xyzi_pairs_with_latest_size (chunks : List VoxR.RChunk)
    (ms : List VoxR.RVoxModel) (pal : List (Nat × Nat × Nat × Nat))
    (h : VoxR.extractGeom chunks = .ok (ms, pal)) :
    modelsByLatestSize chunks none = .ok ms := by
  obtain ⟨suffix, hms, hml⟩ :=
    extractGeomGo_models_spec chunks none [] VoxR.get_default_palette ms pal h
  rw [hms]
  simpa using hml

/-- Witness for C6 amended: a lone XYZI chunk with no SIZE yields no model. -/
theorem C6_xyzi_pairs_with_latest_size_witness :
    modelsByLatestSize [⟨XYZItag, u32b 0⟩] none = .ok [] :=
  C6_xyzi_pairs_with_latest_size [⟨XYZItag, u32b 0⟩] []
    VoxR.get_default_palette rfl

/-! Claim C9. -/

/-- C9 counterexample: a stream with valid magic, one fully parsed
SIZE/XYZI pair, and 5 trailing bytes (more than zero, fewer than the 12
bytes of a chunk header) does NOT abort: reading returns a scene built from
the chunks parsed so far (one model). -/
theorem C9_counterexample_trailing_header_not_fatal :
    (VoxR.read_vox_scene c9data).isOk = true ∧
    (VoxR.read_vox_scene c9data).toOption.map (fun s => s.models.length) =
      some 1 :=
  ⟨rfl, rfl⟩

/-- C9 amended: for every stream consisting of the header, a sequence of
well-formed chunks, and a trailing fragment of more than zero but fewer
than 12 bytes, reading silently ignores the fragment: the result is exactly
the result of reading the stream without it (no error is surfaced). -/
theorem C9_short_trailer_silently_dropped (cs : List RawChunk) (t : List Nat)
    (v : Nat) (hwf : ∀ c ∈ cs, rawWF c) (ht0 : 0 < t.length)
    (ht : t.length < 12) :
    VoxR.read_vox_scene (VOXtag ++ u32b v ++ encChunks cs ++ t) =
      VoxR.read_vox_scene (VOXtag ++ u32b v ++ encChunks cs) := by
  have hpre : (VOXtag ++ u32b v).length = 8 := by
    simp [VOXtag, length_u32b]
  have hchunks1 : VoxR.parseChunks (VOXtag ++ u32b v ++ encChunks cs ++ t) =
      cs.map RawChunk.toR := by
    show parseFrom (VOXtag ++ u32b v ++ encChunks cs ++ t) 8 = _
    rw [show VOXtag ++ u32b v ++ encChunks cs ++ t =
      (VOXtag ++ u32b v) ++ encChunks cs ++ t from by
        simp [List.append_assoc]]
    rw [show (8 : Nat) = (VOXtag ++ u32b v).length from hpre.symm]
    rw [parseFrom_encChunks cs (VOXtag ++ u32b v) t hwf]
    rw [parseFrom_unfold]
    rw [if_pos (by simp only [List.length_append, hpre]; omega),
      if_pos (by simp only [List.length_append, hpre]; omega)]
    simp
  have hchunks2 : VoxR.parseChunks (VOXtag ++ u32b v ++ encChunks cs) =
      cs.map RawChunk.toR := by
    show parseFrom (VOXtag ++ u32b v ++ encChunks cs) 8 = _
    have hnil : VOXtag ++ u32b v ++ encChunks cs =
        (VOXtag ++ u32b v) ++ encChunks cs ++ ([] : List Nat) := by
      simp [List.append_assoc]
    rw [hnil]
    rw [show (8 : Nat) = (VOXtag ++ u32b v).length from hpre.symm]
    rw [parseFrom_encChunks cs (VOXtag ++ u32b v) [] hwf]
    rw [parseFrom_unfold]
    rw [if_neg (by simp only [List.length_append, List.length_nil, hpre]; omega)]
    simp
  have hv1 : unpack32 (VOXtag ++ u32b v ++ encChunks cs ++ t) 4 =
      .ok (u32of (u32b v)) := rfl
  have hv2 : unpack32 (VOXtag ++ u32b v ++ encChunks cs) 4 =
      .ok (u32of (u32b v)) := rfl
  unfold VoxR.read_vox_scene
  rw [if_neg (fun hcon => hcon rfl), if_neg (fun hcon => hcon rfl)]
  rw [hv1, hv2]
  simp only [bind, Except.instMonad, Except.bind]
  rw [hchunks1, hchunks2]

/-- Witness for C9 amended: one stray trailing byte after an empty chunk
list is dropped. -/
theorem C9_short_trailer_silently_dropped_witness :
    VoxR.read_vox_scene (VOXtag ++ u32b 150 ++ encChunks [] ++ [0]) =
      VoxR.read_vox_scene (VOXtag ++ u32b 150 ++ encChunks []) :=
  C9_short_trailer_silently_dropped [] [0] 150 (by simp) (by decide)
    (by decide)

/-! Claim C10. -/

/-- C10 counterexample: a stream with valid magic and no SIZE/XYZI chunks
at all — only an RGBA chunk whose content is 4 bytes, too short for the
256-entry palette loop — makes `read_vox_file` raise instead of returning
the 1×1×1 empty `VoxelData`. -/
theorem C10_counterexample_malformed_rgba :
    (VoxR.read_vox_file c10data).isOk = false ∧
    (VoxR.parseChunks c10data).map (fun c => c.id) = [RGBAtag] :=
  ⟨rfl, rfl⟩

theorem readQuads_length (content : List Nat) :
    ∀ k off qs, VoxR.readQuads content off k = .ok qs → qs.length = k := by
  intro k
  induction k with
  | zero =>
    intro off qs h
    simp only [VoxR.readQuads] at h
    injection h with h
    rw [← h]
    rfl
  | succ k ih =>
    intro off qs h
    simp only [VoxR.readQuads] at h
    cases hb : VoxR.unpackBBBB content off with
    | error e =>
      rw [hb] at h
      simp only [bind, Except.instMonad, Except.bind] at h
      exact Except.noConfusion h
    | ok q =>
      rw [hb] at h
      simp only [bind, Except.instMonad, Except.bind] at h
      cases hr : VoxR.readQuads content (off + 4) k with
      | error e =>
        rw [hr] at h
        simp only [bind, Except.instMonad, Except.bind] at h
        exact Except.noConfusion h
      | ok rest =>
        rw [hr] at h
        simp only [bind, Except.instMonad, Except.bind] at h
        injection h with h
        rw [← h]
        simp [ih _ _ hr]

set_option maxRecDepth 2000 in
theorem get_default_palette_length : VoxR.get_default_palette.length = 256 := by
  rw [VoxR.get_default_palette, List.length_map]
  rfl

theorem extractGeomGo_palette_length (chunks : List VoxR.RChunk) :
    ∀ pending acc pal ms pal', pal.length = 256 →
      VoxR.extractGeomGo chunks pending acc pal = .ok (ms, pal') →
      pal'.length = 256 := by
  induction chunks with
  | nil =>
    intro pending acc pal ms pal' hp h
    simp only [VoxR.extractGeomGo] at h
    injection h with h
    injection h with ha hb
    rw [← hb]
    exact hp
  | cons c rest ih =>
    intro pending acc pal ms pal' hp h
    simp only [VoxR.extractGeomGo] at h
    by_cases h1 : c.id = SIZEtag
    · rw [if_pos h1] at h
      cases hs : VoxR.unpackIII c.content with
      | error e =>
        rw [hs] at h
        simp only [bind, Except.instMonad, Except.bind] at h
        exact Except.noConfusion h
      | ok s =>
        rw [hs] at h
        simp only [bind, Except.instMonad, Except.bind] at h
        exact ih _ _ _ _ _ hp h
    · rw [if_neg h1] at h
      by_cases h2 : c.id = XYZItag
      · rw [if_pos h2] at h
        cases hn : unpack32 c.content 0 with
        | error e =>
          rw [hn] at h
          simp only [bind, Except.instMonad, Except.bind] at h
          exact Except.noConfusion h
        | ok n =>
          rw [hn] at h
          simp only [bind, Except.instMonad, Except.bind] at h
          cases hq : VoxR.readQuads c.content 4 n with
          | error e =>
            rw [hq] at h
            simp only [bind, Except.instMonad, Except.bind] at h
            exact Except.noConfusion h
          | ok vs =>
            rw [hq] at h
            simp only [bind, Except.instMonad, Except.bind] at h
            cases pending with
            | none => exact ih _ _ _ _ _ hp h
            | some sz =>
              obtain ⟨sx, sy, sz2⟩ := sz
              exact ih _ _ _ _ _ hp h
      · rw [if_neg h2] at h
        by_cases h3 : c.id = RGBAtag
        · rw [if_pos h3] at h
          cases hq : VoxR.readQuads c.content 0 256 with
          | error e =>
            rw [hq] at h
            simp only [bind, Except.instMonad, Except.bind] at h
            exact Except.noConfusion h
          | ok p =>
            rw [hq] at h
            simp only [bind, Except.instMonad, Except.bind] at h
            exact ih _ _ _ _ _ (readQuads_length c.content 256 0 p hq) h
        · rw [if_neg h3] at h
          exact ih _ _ _ _ _ hp h

theorem extractGeomGo_palette_noRGBA (chunks : List VoxR.RChunk) :
    ∀ pending acc pal ms pal', (∀ c ∈ chunks, c.id ≠ RGBAtag) →
      VoxR.extractGeomGo chunks pending acc pal = .ok (ms, pal') →
      pal' = pal := by
  induction chunks with
  | nil =>
    intro pending acc pal ms pal' _ h
    simp only [VoxR.extractGeomGo] at h
    injection h with h
    injection h with ha hb
    exact hb.symm
  | cons c rest ih =>
    intro pending acc pal ms pal' hno h
    have hcno : c.id ≠ RGBAtag := hno c (by simp)
    have hrno : ∀ d ∈ rest, d.id ≠ RGBAtag := fun d hd => hno d (by simp [hd])
    simp only [VoxR.extractGeomGo] at h
    by_cases h1 : c.id = SIZEtag
    · rw [if_pos h1] at h
      cases hs : VoxR.unpackIII c.content with
      | error e =>
        rw [hs] at h
        simp only [bind, Except.instMonad, Except.bind] at h
        exact Except.noConfusion h
      | ok s =>
        rw [hs] at h
        simp only [bind, Except.instMonad, Except.bind] at h
        exact ih _ _ _ _ _ hrno h
    · rw [if_neg h1] at h
      by_cases h2 : c.id = XYZItag
      · rw [if_pos h2] at h
        cases hn : unpack32 c.content 0 with
        | error e =>
          rw [hn] at h
          simp only [bind, Except.instMonad, Except.bind] at h
          exact Except.noConfusion h
        | ok n =>
          rw [hn] at h
          simp only [bind, Except.instMonad, Except.bind] at h
          cases hq : VoxR.readQuads c.content 4 n with
          | error e =>
            rw [hq] at h
            simp only [bind, Except.instMonad, Except.bind] at h
            exact Except.noConfusion h
          | ok vs =>
            rw [hq] at h
            simp only [bind, Except.instMonad, Except.bind] at h
            cases pending with
            | none => exact ih _ _ _ _ _ hrno h
            | some sz =>
              obtain ⟨sx, sy, sz2⟩ := sz
              exact ih _ _ _ _ _ hrno h
      · rw [if_neg h2] at h
        rw [if_neg hcno] at h
        exact ih _ _ _ _ _ hrno h

theorem read_vox_scene_ok_inv (data : List Nat) (s : VoxR.VoxScene)
    (h : VoxR.read_vox_scene data = .ok s) :
    VoxR.extractGeom (VoxR.parseChunks data) = .ok (s.models, s.palette) := by
  unfold VoxR.read_vox_scene at h
  by_cases hm : pySlice data 0 4 ≠ VOXtag
  · rw [if_pos hm] at h
    exact Except.noConfusion h
  · rw [if_neg hm] at h
    cases hv : unpack32 data 4 with
    | error e =>
      rw [hv] at h
      simp only [bind, Except.instMonad, Except.bind] at h
      exact Except.noConfusion h
    | ok ver =>
      rw [hv] at h
      simp only [bind, Except.instMonad, Except.bind] at h
      cases hg : VoxR.extractGeom (VoxR.parseChunks data) with
      | error e =>
        rw [hg] at h
        simp only [bind, Except.instMonad, Except.bind] at h
        exact Except.noConfusion h
      | ok mp =>
        obtain ⟨ms0, pal0⟩ := mp
        rw [hg] at h
        simp only [bind, Except.instMonad, Except.bind] at h
        cases hsg : VoxR.extractSceneGraphGo (VoxR.parseChunks data) [] [] with
        | error e =>
          rw [hsg] at h
          simp only [bind, Except.instMonad, Except.bind] at h
          exact Except.noConfusion h
        | ok ts =>
          obtain ⟨ts0, ss0⟩ := ts
          rw [hsg] at h
          simp only [bind, Except.instMonad, Except.bind] at h
          injection h with h
          subst h
          rfl

/-- C10 amended: whenever `read_vox_scene` succeeds with no models (in
particular for any correct-magic stream of well-formed non-model chunks),
`read_vox_file` does not raise and returns a `VoxelData` with
size 1×1×1, an empty voxel list, and the scene's palette; that palette
always has 256 entries (so it is never empty), and it is the built-in
default when no RGBA chunk is present.  However a malformed chunk — e.g. a
short RGBA content — still aborts the read (see the counterexample). -/
theorem C10_no_models_gives_default_voxeldata (data : List Nat)
    (s : VoxR.VoxScene) (h : VoxR.read_vox_scene data = .ok s)
    (hm : s.models = []) :
    VoxR.read_vox_file data = .ok ⟨1, 1, 1, [], s.palette⟩ ∧
    s.palette.length = 256 ∧
    ((∀ c ∈ VoxR.parseChunks data, c.id ≠ RGBAtag) →
      s.palette = VoxR.get_default_palette) := by
  have hg := read_vox_scene_ok_inv data s h
  have hlen : s.palette.length = 256 :=
    extractGeomGo_palette_length (VoxR.parseChunks data) none []
      VoxR.get_default_palette s.models s.palette get_default_palette_length hg
  refine ⟨?_, hlen, ?_⟩
  · unfold VoxR.read_vox_file
    rw [h]
    simp only [bind, Except.instMonad, Except.bind]
    rw [hm]
    have hne : s.palette ≠ [] := by
      intro he
      rw [he] at hlen
      exact absurd hlen (by decide)
    simp [hne]
  · intro hno
    exact extractGeomGo_palette_noRGBA (VoxR.parseChunks data) none []
      VoxR.get_default_palette s.models s.palette hno hg

/-- Witness for C10 amended: the bare 8-byte header stream. -/
theorem C10_no_models_gives_default_voxeldata_witness :
    VoxR.read_vox_file (VOXtag ++ u32b 150) =
      .ok ⟨1, 1, 1, [], VoxR.get_default_palette⟩ ∧
    (VoxR.get_default_palette).length = 256 ∧
    ((∀ c ∈ VoxR.parseChunks (VOXtag ++ u32b 150), c.id ≠ RGBAtag) →
      VoxR.get_default_palette = VoxR.get_default_palette) :=
  C10_no_models_gives_default_voxeldata (VOXtag ++ u32b 150)
    ⟨[], VoxR.get_default_palette, []⟩ rfl rfl

/-! Claim C1: supporting lemmas. -/

theorem natQuadBytes_length : ∀ qs : List (Nat × Nat × Nat × Nat),
    (natQuadBytes qs).length = 4 * qs.length := by
  intro qs
  induction qs with
  | nil => rfl
  | cons q rest ih =>
    obtain ⟨a, b, c, d⟩ := q
    simp only [natQuadBytes, List.length_cons, ih]
    omega

/-- A quadruple of ints each in byte range (color indices included via
1 ≤ v ≤ 255 ⊆ 0 ≤ v ≤ 255). -/
theorem packQuads_eq : ∀ vs : List (Int × Int × Int × Int),
    (∀ q ∈ vs, 0 ≤ q.1 ∧ q.1 ≤ 255 ∧ 0 ≤ q.2.1 ∧ q.2.1 ≤ 255 ∧
      0 ≤ q.2.2.1 ∧ q.2.2.1 ≤ 255 ∧ 0 ≤ q.2.2.2 ∧ q.2.2.2 ≤ 255) →
    VoxW.packQuads vs = some (natQuadBytes (vs.map quadToNat)) := by
  intro vs
  induction vs with
  | nil => intro _; rfl
  | cons q rest ih =>
    intro h
    obtain ⟨x, y, z, c⟩ := q
    have hq := h (x, y, z, c) (by simp)
    simp only at hq
    simp only [VoxW.packQuads, packB]
    rw [if_pos ⟨hq.1, hq.2.1⟩, if_pos ⟨hq.2.2.1, hq.2.2.2.1⟩,
      if_pos ⟨hq.2.2.2.2.1, hq.2.2.2.2.2.1⟩,
      if_pos ⟨hq.2.2.2.2.2.2.1, hq.2.2.2.2.2.2.2⟩]
    rw [ih (fun q hqm => h q (by simp [hqm]))]
    rfl

theorem readQuads_natQuadBytes : ∀ (qs : List (Nat × Nat × Nat × Nat))
    (pre post : List Nat),
    VoxR.readQuads (pre ++ (natQuadBytes qs ++ post)) pre.length qs.length =
      .ok qs := by
  intro qs
  induction qs with
  | nil => intro pre post; rfl
  | cons q rest ih =>
    obtain ⟨a, b, c, d⟩ := q
    intro pre post
    have hdrop : (pre ++ (natQuadBytes ((a, b, c, d) :: rest) ++ post)).drop
        pre.length = natQuadBytes ((a, b, c, d) :: rest) ++ post :=
      List.drop_left _ _
    have hb : VoxR.unpackBBBB
        (pre ++ (natQuadBytes ((a, b, c, d) :: rest) ++ post)) pre.length =
        .ok (a, b, c, d) := by
      unfold VoxR.unpackBBBB pySlice
      rw [hdrop]
      rfl
    have hregroup : pre ++ (natQuadBytes ((a, b, c, d) :: rest) ++ post) =
        (pre ++ [a, b, c, d]) ++ (natQuadBytes rest ++ post) := by
      simp [natQuadBytes, List.append_assoc]
    have hoff : pre.length + 4 = (pre ++ [a, b, c, d]).length := by
      simp
    show VoxR.readQuads _ pre.length (rest.length + 1) = _
    simp only [VoxR.readQuads]
    rw [hb]
    simp only [bind, Except.instMonad, Except.bind]
    rw [hregroup, hoff, ih (pre ++ [a, b, c, d]) post]

theorem unpack32_u32b (n : Nat) (rest : List Nat) (h : n < 4294967296) :
    unpack32 (u32b n ++ rest) 0 = .ok n := by
  show Except.ok (n % 256 + 256 * (n / 256 % 256) + 65536 * (n / 65536 % 256) +
    16777216 * (n / 16777216 % 256)) = Except.ok n
  congr 1
  omega

theorem unpackIII_packed (a b c : Nat) (ha : a < 4294967296)
    (hb : b < 4294967296) (hc : c < 4294967296) :
    VoxR.unpackIII (u32b a ++ u32b b ++ u32b c) = .ok (a, b, c) := by
  show Except.ok (u32of [a % 256, a / 256 % 256, a / 65536 % 256,
      a / 16777216 % 256], u32of [b % 256, b / 256 % 256, b / 65536 % 256,
      b / 16777216 % 256], u32of [c % 256, c / 256 % 256, c / 65536 % 256,
      c / 16777216 % 256]) = Except.ok (a, b, c)
  rw [show u32of [a % 256, a / 256 % 256, a / 65536 % 256,
      a / 16777216 % 256] = a from by rw [← u32b]; exact u32of_u32b a ha]
  rw [show u32of [b % 256, b / 256 % 256, b / 65536 % 256,
      b / 16777216 % 256] = b from by rw [← u32b]; exact u32of_u32b b hb]
  rw [show u32of [c % 256, c / 256 % 256, c / 65536 % 256,
      c / 16777216 % 256] = c from by rw [← u32b]; exact u32of_u32b c hc]

theorem rgbaEntries_length (colors : List (Int × Int × Int × Int)) :
    (VoxW.rgbaEntries colors).length = 256 := by
  simp [VoxW.rgbaEntries]

theorem rgbaEntries_range (colors : List (Int × Int × Int × Int))
    (h : ∀ q ∈ colors, 0 ≤ q.1 ∧ q.1 ≤ 255 ∧ 0 ≤ q.2.1 ∧ q.2.1 ≤ 255 ∧
      0 ≤ q.2.2.1 ∧ q.2.2.1 ≤ 255 ∧ 0 ≤ q.2.2.2 ∧ q.2.2.2 ≤ 255) :
    ∀ q ∈ VoxW.rgbaEntries colors, 0 ≤ q.1 ∧ q.1 ≤ 255 ∧ 0 ≤ q.2.1 ∧
      q.2.1 ≤ 255 ∧ 0 ≤ q.2.2.1 ∧ q.2.2.1 ≤ 255 ∧ 0 ≤ q.2.2.2 ∧
      q.2.2.2 ≤ 255 := by
  intro q hq
  simp only [VoxW.rgbaEntries, List.mem_map] at hq
  obtain ⟨i, _, hi⟩ := hq
  by_cases hlt : i + 1 < colors.length
  · rw [if_pos hlt] at hi
    have hmem : colors.getD (i + 1) (0, 0, 0, 255) ∈ colors := by
      have hg : colors.get? (i + 1) = some (colors.getD (i + 1) (0, 0, 0, 255)) := by
        rw [List.getD_eq_get? ]
        cases hg2 : colors.get? (i + 1) with
        | none =>
          rw [List.get?_eq_none] at hg2
          omega
        | some v => rfl
      exact List.get?_mem hg
    rw [← hi]
    exact h _ hmem
  · rw [if_neg hlt] at hi
    rw [← hi]
    refine ⟨by decide, by decide, by decide, by decide, by decide, by decide,
      by decide, by decide⟩

theorem readQuads_natQuadBytes0 (qs : List (Nat × Nat × Nat × Nat)) :
    VoxR.readQuads (natQuadBytes qs) 0 qs.length = .ok qs := by
  have := readQuads_natQuadBytes qs [] []
  simpa using this

theorem readQuads_after_u32b (n : Nat) (qs : List (Nat × Nat × Nat × Nat)) :
    VoxR.readQuads (u32b n ++ natQuadBytes qs) 4 qs.length = .ok qs := by
  have := readQuads_natQuadBytes qs (u32b n) []
  simpa [length_u32b] using this

theorem extractGeomGo_skip (c : VoxR.RChunk) (rest : List VoxR.RChunk)
    (pending : Option (Nat × Nat × Nat)) (acc : List VoxR.RVoxModel)
    (pal : List (Nat × Nat × Nat × Nat)) (h1 : ¬ c.id = SIZEtag)
    (h2 : ¬ c.id = XYZItag) (h3 : ¬ c.id = RGBAtag) :
    VoxR.extractGeomGo (c :: rest) pending acc pal =
      VoxR.extractGeomGo rest pending acc pal := by
  simp only [VoxR.extractGeomGo]
  rw [if_neg h1, if_neg h2, if_neg h3]

theorem extractGeomGo_size (content : List Nat) (rest : List VoxR.RChunk)
    (pending : Option (Nat × Nat × Nat)) (acc : List VoxR.RVoxModel)
    (pal : List (Nat × Nat × Nat × Nat)) (s : Nat × Nat × Nat)
    (h : VoxR.unpackIII content = .ok s) :
    VoxR.extractGeomGo (⟨SIZEtag, content⟩ :: rest) pending acc pal =
      VoxR.extractGeomGo rest (some s) acc pal := by
  simp only [VoxR.extractGeomGo]
  rw [if_pos trivial, h]
  rfl

theorem extractGeomGo_xyzi_some (content : List Nat)
    (rest : List VoxR.RChunk) (sx sy sz : Nat) (acc : List VoxR.RVoxModel)
    (pal : List (Nat × Nat × Nat × Nat)) (n : Nat)
    (vs : List (Nat × Nat × Nat × Nat)) (hn : unpack32 content 0 = .ok n)
    (hv : VoxR.readQuads content 4 n = .ok vs) :
    VoxR.extractGeomGo (⟨XYZItag, content⟩ :: rest) (some (sx, sy, sz)) acc
        pal =
      VoxR.extractGeomGo rest (some (sx, sy, sz))
        (acc ++ [{ size_x := sx, size_y := sy, size_z := sz, voxels := vs }])
        pal := by
  simp only [VoxR.extractGeomGo]
  rw [if_neg (by decide), if_pos trivial, hn]
  simp only [bind, Except.instMonad, Except.bind]
  rw [hv]

theorem extractGeomGo_rgba (content : List Nat) (rest : List VoxR.RChunk)
    (pending : Option (Nat × Nat × Nat)) (acc : List VoxR.RVoxModel)
    (pal p : List (Nat × Nat × Nat × Nat))
    (h : VoxR.readQuads content 0 256 = .ok p) :
    VoxR.extractGeomGo (⟨RGBAtag, content⟩ :: rest) pending acc pal =
      VoxR.extractGeomGo rest pending acc p := by
  simp only [VoxR.extractGeomGo]
  rw [if_neg (by decide), if_neg (by decide), if_pos trivial, h]
  rfl

/-- C1: writing one VoxelModel M (voxels in range) together with a Palette P
(256 in-range RGBA entries) through `VoxWriter.write`, then reading the
produced bytes back with `read_vox_scene`, yields a scene with exactly one
model of the same size and the same voxel list (hence voxel set, with the
Int byte values read back as the corresponding Nats), and a palette whose
position i-1 — the slot `get_voxel_color` consults for index i — holds P's
color for index i, for every addressable index 1-255. -/
theorem C1_roundtrip (M : VoxW.VoxModel) (P : VoxW.VoxPalette)
    (hsx : 0 ≤ M.size_x ∧ M.size_x < 4294967296)
    (hsy : 0 ≤ M.size_y ∧ M.size_y < 4294967296)
    (hsz : 0 ≤ M.size_z ∧ M.size_z < 4294967296)
    (hvox : ∀ q ∈ M.voxels, 0 ≤ q.1 ∧ q.1 ≤ 255 ∧ 0 ≤ q.2.1 ∧ q.2.1 ≤ 255 ∧
      0 ≤ q.2.2.1 ∧ q.2.2.1 ≤ 255 ∧ 1 ≤ q.2.2.2 ∧ q.2.2.2 ≤ 255)
    (hvn : 1080 + 4 * M.voxels.length < 4294967296)
    (hpl : P.colors.length = 256)
    (hpc : ∀ q ∈ P.colors, 0 ≤ q.1 ∧ q.1 ≤ 255 ∧ 0 ≤ q.2.1 ∧ q.2.1 ≤ 255 ∧
      0 ≤ q.2.2.1 ∧ q.2.2.1 ≤ 255 ∧ 0 ≤ q.2.2.2 ∧ q.2.2.2 ≤ 255) :
    ∃ bytes, VoxW.VoxWriter.write ⟨[M], P⟩ = some bytes ∧
      VoxR.read_vox_scene bytes = .ok
        { models := [{ size_x := M.size_x.toNat,
                       size_y := M.size_y.toNat,
                       size_z := M.size_z.toNat,
                       voxels := M.voxels.map quadToNat }],
          palette := (VoxW.rgbaEntries P.colors).map quadToNat,
          instances := [(0, (0, 0, 0), 0, VoxR.modelName 0)] } ∧
      (∀ i, 1 ≤ i → i ≤ 255 →
        ((VoxW.rgbaEntries P.colors).map quadToNat).get? (i - 1) =
          some (quadToNat (P.colors.getD i (0, 0, 0, 255)))) := by
  have hvox' : ∀ q ∈ M.voxels, 0 ≤ q.1 ∧ q.1 ≤ 255 ∧ 0 ≤ q.2.1 ∧
      q.2.1 ≤ 255 ∧ 0 ≤ q.2.2.1 ∧ q.2.2.1 ≤ 255 ∧ 0 ≤ q.2.2.2 ∧
      q.2.2.2 ≤ 255 := by
    intro q hq
    have h := hvox q hq
    refine ⟨h.1, h.2.1, h.2.2.1, h.2.2.2.1, h.2.2.2.2.1, h.2.2.2.2.2.1,
      ?_, h.2.2.2.2.2.2.2⟩
    have := h.2.2.2.2.2.2.1
    omega
  set sContent : List Nat := u32b M.size_x.toNat ++ u32b M.size_y.toNat ++
    u32b M.size_z.toNat with hsCdef
  set xContent : List Nat := u32b M.voxels.length ++
    natQuadBytes (M.voxels.map quadToNat) with hxCdef
  set rContent : List Nat :=
    natQuadBytes ((VoxW.rgbaEntries P.colors).map quadToNat) with hrCdef
  have hslen : sContent.length = 12 := by
    rw [hsCdef]
    simp [length_u32b]
  have hxlen : xContent.length = 4 + 4 * M.voxels.length := by
    rw [hxCdef]
    simp [length_u32b, natQuadBytes_length]
  have hrlen : rContent.length = 1024 := by
    rw [hrCdef]
    simp [natQuadBytes_length, rgbaEntries_length]
  have hsize : VoxW.VoxModel.get_size_chunk M = some ⟨SIZEtag, sContent, []⟩ := by
    simp only [VoxW.VoxModel.get_size_chunk, pack32i]
    rw [if_pos hsx, if_pos hsy, if_pos hsz]
    rfl
  have hxyzi : VoxW.VoxModel.get_xyzi_chunk M =
      some ⟨XYZItag, xContent, []⟩ := by
    simp only [VoxW.VoxModel.get_xyzi_chunk, pack32]
    rw [if_pos (show M.voxels.length < 4294967296 by omega)]
    rw [packQuads_eq M.voxels hvox']
    rfl
  have hrgba : VoxW.VoxPalette.get_rgba_chunk P =
      some ⟨RGBAtag, rContent, []⟩ := by
    simp only [VoxW.VoxPalette.get_rgba_chunk]
    rw [packQuads_eq _ (rgbaEntries_range P.colors hpc)]
    rfl
  have hsb : VoxW.VoxChunk.to_bytes ⟨SIZEtag, sContent, []⟩ =
      some (encChunk ⟨SIZEtag, sContent, 0⟩) := by
    simp only [VoxW.VoxChunk.to_bytes, pack32]
    rw [hslen]
    rw [if_pos (by omega : (12 : Nat) < 4294967296)]
    rw [if_pos (by simp : ([] : List Nat).length < 4294967296)]
    simp [encChunk, hslen]
  have hxb : VoxW.VoxChunk.to_bytes ⟨XYZItag, xContent, []⟩ =
      some (encChunk ⟨XYZItag, xContent, 0⟩) := by
    simp only [VoxW.VoxChunk.to_bytes, pack32]
    rw [hxlen]
    rw [if_pos (by omega : 4 + 4 * M.voxels.length < 4294967296)]
    rw [if_pos (by simp : ([] : List Nat).length < 4294967296)]
    simp [encChunk, hxlen]
  have hrb : VoxW.VoxChunk.to_bytes ⟨RGBAtag, rContent, []⟩ =
      some (encChunk ⟨RGBAtag, rContent, 0⟩) := by
    simp only [VoxW.VoxChunk.to_bytes, pack32]
    rw [hrlen]
    rw [if_pos (by omega : (1024 : Nat) < 4294967296)]
    rw [if_pos (by simp : ([] : List Nat).length < 4294967296)]
    simp [encChunk, hrlen]
  have hmodelbytes : VoxW.modelChunksBytes [M] =
      some (encChunk ⟨SIZEtag, sContent, 0⟩ ++
        encChunk ⟨XYZItag, xContent, 0⟩) := by
    simp only [VoxW.modelChunksBytes, hsize, hxyzi, hsb, hxb, bind,
      instMonadOption, Option.bind]
    simp
  set childrenData : List Nat := encChunk ⟨SIZEtag, sContent, 0⟩ ++
    encChunk ⟨XYZItag, xContent, 0⟩ ++ encChunk ⟨RGBAtag, rContent, 0⟩
    with hcddef
  have hcdlen : childrenData.length = 1076 + 4 * M.voxels.length := by
    rw [hcddef]
    simp only [List.length_append]
    rw [length_encChunk ⟨SIZEtag, sContent, 0⟩ rfl,
      length_encChunk ⟨XYZItag, xContent, 0⟩ rfl,
      length_encChunk ⟨RGBAtag, rContent, 0⟩ rfl]
    rw [hslen, hxlen, hrlen]
    omega
  have hmainb : VoxW.VoxChunk.to_bytes ⟨MAINtag, [], childrenData⟩ =
      some (encChunk ⟨MAINtag, [], childrenData.length⟩ ++ childrenData) := by
    simp only [VoxW.VoxChunk.to_bytes, pack32]
    rw [if_pos (by simp : ([] : List Nat).length < 4294967296)]
    rw [if_pos (show childrenData.length < 4294967296 by rw [hcdlen]; omega)]
    simp [encChunk]
  have hwrite : VoxW.VoxWriter.write ⟨[M], P⟩ =
      some (VOXtag ++ u32b 150 ++
        (encChunk ⟨MAINtag, [], childrenData.length⟩ ++ childrenData)) := by
    simp only [VoxW.VoxWriter.write, pack32]
    rw [if_pos (by omega : (150 : Nat) < 4294967296)]
    simp only [bind, instMonadOption, Option.bind]
    rw [if_neg (show ¬ ([M] : List VoxW.VoxModel).length > 1 by simp)]
    rw [hmodelbytes, hrgba]
    simp only [bind, instMonadOption, Option.bind]
    rw [hrb]
    simp only [bind, instMonadOption, Option.bind]
    rw [show ([] : List Nat) ++ (encChunk ⟨SIZEtag, sContent, 0⟩ ++
        encChunk ⟨XYZItag, xContent, 0⟩) ++ encChunk ⟨RGBAtag, rContent, 0⟩ =
        childrenData from by rw [hcddef]; simp]
    rw [hmainb]
  have hwf : ∀ c ∈ ([⟨MAINtag, [], childrenData.length⟩,
      ⟨SIZEtag, sContent, 0⟩, ⟨XYZItag, xContent, 0⟩,
      ⟨RGBAtag, rContent, 0⟩] : List RawChunk), rawWF c := by
    intro c hc
    simp only [List.mem_cons, List.not_mem_nil, or_false] at hc
    rcases hc with hc | hc | hc | hc <;> subst hc <;> constructor
    · rfl
    · simp
    · rfl
    · rw [hslen]; omega
    · rfl
    · rw [hxlen]; omega
    · rfl
    · rw [hrlen]; omega
  have hbytes_eq : VOXtag ++ u32b 150 ++
      (encChunk ⟨MAINtag, [], childrenData.length⟩ ++ childrenData) =
      (VOXtag ++ u32b 150) ++
        encChunks [⟨MAINtag, [], childrenData.length⟩,
          ⟨SIZEtag, sContent, 0⟩, ⟨XYZItag, xContent, 0⟩,
          ⟨RGBAtag, rContent, 0⟩] ++ [] := by
    rw [hcddef]
    simp [encChunks, List.append_assoc]
  have h8 : (VOXtag ++ u32b 150 : List Nat).length = 8 := by
    simp [VOXtag, length_u32b]
  have hchunks : VoxR.parseChunks (VOXtag ++ u32b 150 ++
      (encChunk ⟨MAINtag, [], childrenData.length⟩ ++ childrenData)) =
      [⟨MAINtag, []⟩, ⟨SIZEtag, sContent⟩, ⟨XYZItag, xContent⟩,
        ⟨RGBAtag, rContent⟩] := by
    show parseFrom _ 8 = _
    rw [hbytes_eq]
    rw [show (8 : Nat) = (VOXtag ++ u32b 150 : List Nat).length from h8.symm]
    rw [parseFrom_encChunks _ _ _ hwf]
    rw [parseFrom_unfold]
    rw [if_neg (by simp only [List.length_append, List.length_nil]; omega)]
    simp [RawChunk.toR]
  have hunpIII : VoxR.unpackIII sContent =
      .ok (M.size_x.toNat, M.size_y.toNat, M.size_z.toNat) := by
    rw [hsCdef]
    exact unpackIII_packed _ _ _ (by omega) (by omega) (by omega)
  have hunp32 : unpack32 xContent 0 = .ok M.voxels.length := by
    rw [hxCdef]
    exact unpack32_u32b _ _ (by omega)
  have hreadx : VoxR.readQuads xContent 4 M.voxels.length =
      .ok (M.voxels.map quadToNat) := by
    rw [hxCdef]
    rw [show M.voxels.length = (M.voxels.map quadToNat).length from
      (List.length_map _ _).symm]
    exact readQuads_after_u32b _ _
  have hreadr : VoxR.readQuads rContent 0 256 =
      .ok ((VoxW.rgbaEntries P.colors).map quadToNat) := by
    rw [hrCdef]
    rw [show (256 : Nat) = ((VoxW.rgbaEntries P.colors).map quadToNat).length
      from by simp [rgbaEntries_length]]
    exact readQuads_natQuadBytes0 _
  have hgeom : VoxR.extractGeom [⟨MAINtag, []⟩, ⟨SIZEtag, sContent⟩,
      ⟨XYZItag, xContent⟩, ⟨RGBAtag, rContent⟩] =
      .ok ([{ size_x := M.size_x.toNat,
              size_y := M.size_y.toNat,
              size_z := M.size_z.toNat,
              voxels := M.voxels.map quadToNat }],
        (VoxW.rgbaEntries P.colors).map quadToNat) := by
    show VoxR.extractGeomGo _ none [] VoxR.get_default_palette = _
    rw [extractGeomGo_skip _ _ _ _ _ (by decide) (by decide) (by decide)]
    rw [extractGeomGo_size _ _ _ _ _ _ hunpIII]
    rw [extractGeomGo_xyzi_some _ _ _ _ _ _ _ _ _ hunp32 hreadx]
    rw [extractGeomGo_rgba _ _ _ _ _ _ hreadr]
    rfl
  refine ⟨VOXtag ++ u32b 150 ++
      (encChunk ⟨MAINtag, [], childrenData.length⟩ ++ childrenData),
    hwrite, ?_, ?_⟩
  · unfold VoxR.read_vox_scene
    rw [if_neg (fun hcon => hcon rfl)]
    rw [show unpack32 (VOXtag ++ u32b 150 ++
      (encChunk ⟨MAINtag, [], childrenData.length⟩ ++ childrenData)) 4 =
        .ok 150 from rfl]
    simp only [bind, Except.instMonad, Except.bind]
    rw [hchunks, hgeom]
    simp only [bind, Except.instMonad, Except.bind]
    rfl
  · intro i h1 h255
    rw [List.get?_map]
    have hrg : (VoxW.rgbaEntries P.colors).get? (i - 1) =
        some (if i - 1 + 1 < P.colors.length then
          P.colors.getD (i - 1 + 1) (0, 0, 0, 255) else (0, 0, 0, 255)) := by
      simp only [VoxW.rgbaEntries, List.get?_map]
      rw [List.get?_range (show i - 1 < 256 by omega)]
      rfl
    rw [hrg]
    rw [show i - 1 + 1 = i from by omega]
    rw [if_pos (show i < P.colors.length by rw [hpl]; omega)]
    rfl

set_option maxRecDepth 4000 in
theorem defaultColors_length : VoxW.defaultColors.length = 256 := by
  rw [VoxW.defaultColors, List.length_map]
  rfl

set_option maxRecDepth 4000 in
theorem defaultColors_range : ∀ q ∈ VoxW.defaultColors, 0 ≤ q.1 ∧
    q.1 ≤ 255 ∧ 0 ≤ q.2.1 ∧ q.2.1 ≤ 255 ∧ 0 ≤ q.2.2.1 ∧ q.2.2.1 ≤ 255 ∧
    0 ≤ q.2.2.2 ∧ q.2.2.2 ≤ 255 := by
  decide

set_option maxRecDepth 4000 in
/-- Witness for C1 at the model of size (2,2,2) with one voxel (0,0,0,1)
and a fresh default palette. -/
theorem C1_roundtrip_witness :
    ∃ bytes,
      VoxW.VoxWriter.write ⟨[{ size_x := 2,
                               size_y := 2,
                               size_z := 2,
                               voxels := [(0, 0, 0, 1)] }],
        VoxW.VoxPalette.new⟩ = some bytes ∧
      VoxR.read_vox_scene bytes = .ok
        { models := [{ size_x := 2,
                       size_y := 2,
                       size_z := 2,
                       voxels := [(0, 0, 0, 1)] }],
          palette := (VoxW.rgbaEntries VoxW.VoxPalette.new.colors).map
            quadToNat,
          instances := [(0, (0, 0, 0), 0, VoxR.modelName 0)] } ∧
      (∀ i, 1 ≤ i → i ≤ 255 →
        ((VoxW.rgbaEntries VoxW.VoxPalette.new.colors).map quadToNat).get?
            (i - 1) =
          some (quadToNat (VoxW.VoxPalette.new.colors.getD i
            (0, 0, 0, 255)))) :=
  C1_roundtrip
    { size_x := 2, size_y := 2, size_z := 2, voxels := [(0, 0, 0, 1)] }
    VoxW.VoxPalette.new (by decide) (by decide) (by decide) (by decide)
    (by decide) defaultColors_length defaultColors_range
